import Mathlib

/-!
Verification of `src/ai-generators/build_public_pages.py`, a one-shot static
site builder: it resolves per-category data directories, loads JSON/YAML
records from them, extracts display fields with fallback chains, and renders
eight fixed HTML pages.

The embedding below mirrors the Python source function by function.
Python values that flow through the record pipeline (results of `json.loads`
and `yaml.safe_load`) are modelled by the `Value` inductive; Python `None` at
lookup sites is `Option Value`.  The external parsing libraries (`json`,
`yaml`) are oracles: each source file carries the value (or error) the two
parsers would produce for its raw content, and `load_data` reproduces the
extension dispatch, content sniffing, truthiness coercion, and error handling
of the Python function around them.  Floats are exact rationals (no NaN/inf:
records with a literal float NaN are outside the model).  Wall-clock time is
an explicit `PyTime` parameter (the Python code reads `datetime.now()` only
inside the shared page shell).  Code paths on which the Python program would
raise (attribute errors on non-mapping sub-records) return `Except.error`;
the top-level driver catches these per renderer.
-/

namespace BuildPublicPages

/-- A JSON/YAML-like Python value: the payloads produced by `json.loads` /
`yaml.safe_load`.  `int` and `float` are separate, as in Python, because
`str()` renders them differently (`"3"` vs `"3.0"`). -/
inductive Value where
  | null
  | bool (b : Bool)
  | int (n : Int)
  | float (q : Rat)
  | str (s : String)
  | list (xs : List Value)
  | dict (kvs : List (String × Value))
deriving Inhabited

/-- Python truthiness (`bool(v)`) for the values in the model. -/
def truthy : Value → Bool
  | .null => false
  | .bool b => b
  | .int n => n != 0
  | .float q => q != 0
  | .str s => s != ""
  | .list xs => !xs.isEmpty
  | .dict kvs => !kvs.isEmpty

/-- First binding for a key in a mapping (Python dicts have unique keys). -/
def dictGet (kvs : List (String × Value)) (k : String) : Option Value :=
  (kvs.find? (fun p => p.1 == k)).map (fun p => p.2)

/-- Python `d.get(k)`: `None` when the receiver is not a mapping (the source
only calls `.get` on values it has `isinstance`-checked as `dict`, except at
the sites modelled by `dictGetE` below). -/
def Value.get : Value → String → Option Value
  | .dict kvs, k => dictGet kvs k
  | _, _ => none

/-- Python `a or b` on two possibly-`None` values (short-circuit truthiness). -/
def pyOr (a b : Option Value) : Option Value :=
  match a with
  | some v => if truthy v then some v else b
  | none => b

/-- Python `a or dflt` where the fallback is a definite value, e.g.
`(loc.get("geo") or {})`. -/
def pyOrV (a : Option Value) (dflt : Value) : Value :=
  match a with
  | some v => if truthy v then v else dflt
  | none => dflt

/-- Python `v.get(k)` on a value that may not be a mapping: raises
(`AttributeError`) unless `v` is a dict. -/
def dictGetE (v : Value) (k : String) : Except Unit (Option Value) :=
  match v with
  | .dict kvs => .ok (dictGet kvs k)
  | _ => .error ()

/-- ASCII single-quote character, used by the source's HTML snippets. -/
def sq : String := String.singleton (Char.ofNat 39)

/-- Decimal digit list to `Nat`. -/
def digitsToNat (ds : List Char) : Nat :=
  ds.foldl (fun a c => a * 10 + (c.toNat - 48)) 0

/-- Left-pad with zeros to width `w`. -/
def padZeros (s : String) (w : Nat) : String :=
  String.mk (List.replicate (w - s.length) '0') ++ s

/-- Smallest exponent `e ≤ 17` with `q * 10^e` integral, if any. -/
def decExp (q : Rat) : Option Nat :=
  (List.range 18).find? (fun e => (q * (10 : Rat) ^ e).den == 1)

/-- Python `str()` of a float, for floats with a finite decimal expansion
(the only floats the model constructs); mirrors `str(4.0) = "4.0"`. -/
def floatStr (q : Rat) : String :=
  match decExp q with
  | some 0 => toString q.num ++ ".0"
  | some e =>
      let n := (q * (10 : Rat) ^ e).num
      let a := n.natAbs
      (if n < 0 then "-" else "")
        ++ toString (a / 10 ^ e) ++ "." ++ padZeros (toString (a % 10 ^ e)) e
  | none => toString q.num ++ "/" ++ toString q.den

mutual
/-- Python `str(v)`. -/
def pyStr : Value → String
  | .null => "None"
  | .bool b => if b then "True" else "False"
  | .int n => toString n
  | .float q => floatStr q
  | .str s => s
  | .list xs => "[" ++ pyReprList xs ++ "]"
  | .dict kvs => "\x7b" ++ pyReprDict kvs ++ "\x7d"

/-- Python `repr(v)` (as used by `str` on containers). -/
def pyRepr : Value → String
  | .null => "None"
  | .bool b => if b then "True" else "False"
  | .int n => toString n
  | .float q => floatStr q
  | .str s => sq ++ s ++ sq
  | .list xs => "[" ++ pyReprList xs ++ "]"
  | .dict kvs => "\x7b" ++ pyReprDict kvs ++ "\x7d"

def pyReprList : List Value → String
  | [] => ""
  | [x] => pyRepr x
  | x :: xs => pyRepr x ++ ", " ++ pyReprList xs

def pyReprDict : List (String × Value) → String
  | [] => ""
  | [(k, v)] => sq ++ k ++ sq ++ ": " ++ pyRepr v
  | (k, v) :: r => sq ++ k ++ sq ++ ": " ++ pyRepr v ++ ", " ++ pyReprDict r
end

/-- Python `s.lstrip()`. -/
def pyLStrip (s : String) : String :=
  String.mk (s.data.dropWhile Char.isWhitespace)

/-- Python `s.strip()`.  Character-level (equivalent to `String.trim` on the
model's ASCII whitespace) so concrete runs reduce in the kernel. -/
def pyStrip (s : String) : String :=
  String.mk (((s.data.dropWhile Char.isWhitespace).reverse.dropWhile
    Char.isWhitespace).reverse)

/-- Python `s.lower()` (ASCII case folding, character-level). -/
def lowerStr (s : String) : String :=
  String.mk (s.data.map Char.toLower)

/-- Python `s.startswith(pre)` (character-level). -/
def strStartsWith (s pre : String) : Bool :=
  pre.data.isPrefixOf s.data

/-- Python `s.endswith(suf)` (character-level). -/
def strEndsWith (s suf : String) : Bool :=
  suf.data.reverse.isPrefixOf s.data.reverse

/-- Python `s.split(sep)` for a one-character separator (all separators the
source splits on are single characters). -/
def splitOnChar (c : Char) (s : String) : List String :=
  (s.data.foldr
    (fun ch (acc : List (List Char)) =>
      match acc with
      | [] => [[ch]]
      | cur :: rest => if ch == c then [] :: cur :: rest else (ch :: cur) :: rest)
    [[]]).map String.mk

/-- Code-point lexicographic strict order (Python string `<`). -/
def charListLt : List Char → List Char → Bool
  | [], [] => false
  | [], _ :: _ => true
  | _ :: _, [] => false
  | a :: as, b :: bs =>
      if a.toNat < b.toNat then true
      else if b.toNat < a.toNat then false
      else charListLt as bs

/-- `s.lower().endswith(tuple)`-style check against a list of suffixes. -/
def endswithAny (s : String) (exts : List String) : Bool :=
  exts.any (fun e => strEndsWith s e)

/-- Python `str.title()`: uppercase a letter that does not follow a letter,
lowercase the rest (digits and other characters are uncased separators). -/
def pyTitle (s : String) : String :=
  String.mk (s.data.foldl
    (fun (acc : List Char × Bool) c =>
      if c.isAlpha then
        (acc.1 ++ [if acc.2 then c.toLower else c.toUpper], true)
      else (acc.1 ++ [c], false))
    ([], false)).1

/-- Parse a decimal numeral (Python `float(s)` on a string): optional sign,
digits with at most one point, optional exponent.  (`inf`/`nan`/underscored
literals are treated as failures; see the module comment.) -/
def strToRat (s : String) : Option Rat :=
  let cs := (pyStrip s).data
  let (sgn, cs1) :=
    match cs with
    | '+' :: r => ((1 : Rat), r)
    | '-' :: r => ((-1 : Rat), r)
    | r => ((1 : Rat), r)
  let ip := cs1.takeWhile Char.isDigit
  let rest1 := cs1.drop ip.length
  let (fp, rest2, hadDot) :=
    match rest1 with
    | '.' :: r => (r.takeWhile Char.isDigit, r.drop (r.takeWhile Char.isDigit).length, true)
    | r => (([] : List Char), r, false)
  if ip.isEmpty && fp.isEmpty then none
  else
    let mant : Rat := (digitsToNat ip : Rat) + (digitsToNat fp : Rat) / (10 : Rat) ^ fp.length
    let _ := hadDot
    match rest2 with
    | [] => some (sgn * mant)
    | 'e' :: r => strToRatExp sgn mant r
    | 'E' :: r => strToRatExp sgn mant r
    | _ => none
where
  strToRatExp (sgn mant : Rat) (r : List Char) : Option Rat :=
    let (esgn, r1) :=
      match r with
      | '+' :: t => ((1 : Int), t)
      | '-' :: t => ((-1 : Int), t)
      | t => ((1 : Int), t)
    let ds := r1.takeWhile Char.isDigit
    if ds.isEmpty || !(r1.drop ds.length).isEmpty then none
    else some (sgn * mant * (10 : Rat) ^ (esgn * (digitsToNat ds : Int)))

/-- Python `float(v)`: numbers pass through, bools become 0/1, numeric strings
parse, everything else raises (`TypeError`/`ValueError`). -/
def pyFloat : Value → Except Unit Rat
  | .int n => .ok (n : Rat)
  | .float q => .ok q
  | .bool b => .ok (if b then 1 else 0)
  | .str s => match strToRat s with
      | some q => .ok q
      | none => .error ()
  | _ => .error ()

/-- `float(·)` applied to the result of a `.get` that may be `None`
(`float(None)` raises). -/
def pyFloatOpt : Option Value → Except Unit Rat
  | none => .error ()
  | some v => pyFloat v

/-- Python `int()` of a float: truncation toward zero. -/
def pyTrunc (q : Rat) : Int :=
  Int.tdiv q.num (q.den : Int)

/-- Python `round()` to an integer: round half to even. -/
def roundHalfEven (q : Rat) : Int :=
  let f := q.floor
  let r := q - (f : Rat)
  if r < 1 / 2 then f
  else if r > 1 / 2 then f + 1
  else if f % 2 == 0 then f else f + 1

/-- Python `f"{q:.1f}"` for exact rationals: one digit after the point. -/
def fmt1 (q : Rat) : String :=
  let n := roundHalfEven (q * 10)
  let a := n.natAbs
  (if n < 0 then "-" else "") ++ toString (a / 10) ++ "." ++ toString (a % 10)

/-- `escape_html` (source lines 23-30): chained single-character replaces; the
function returns `""` for non-string input, handled at `Value` call sites by
`escape_htmlV`. -/
def escape_html (s : String) : String :=
  String.join (s.data.map (fun c =>
    if c == '&' then "&amp;"
    else if c == '<' then "&lt;"
    else if c == '>' then "&gt;"
    else String.singleton c))

/-- `escape_html` applied to a raw Python value (non-strings give `""`). -/
def escape_htmlV : Value → String
  | .str s => escape_html s
  | _ => ""

/-- Replace each maximal whitespace run with a single dash
(`re.sub(r"[\s]+", "-", ...)`). -/
def collapseWsToDash (s : String) : String :=
  let r := s.data.foldl
    (fun (acc : List Char × Bool) c =>
      if c.isWhitespace then (acc.1, true)
      else ((if acc.2 then acc.1 ++ ['-', c] else acc.1 ++ [c]), false))
    ([], false)
  String.mk r.1

/-- `slugify` (source lines 32-37). -/
def slugify (text : String) : String :=
  if text == "" then "item"
  else
    let t1 := String.mk (text.data.filter
      (fun c => c.isAlphanum || c.isWhitespace || c == '-'))
    let t2 := collapseWsToDash (lowerStr (pyStrip t1))
    if t2 == "" then "item" else t2

/-- One step of `_first_nonempty` (source lines 39-47): the display string a
single argument yields, if any.  Strings must be nonempty after `strip`;
ints/floats/bools satisfy Python's `isinstance(v, (int, float)) and v == v`
(no NaN in the model) and render via `str`; a dict contributes its `"@value"`
entry when that is a non-empty string. -/
def nonemptyVal : Option Value → Option String
  | some (.str s) => if pyStrip s == "" then none else some (pyStrip s)
  | some (.int n) => some (toString n)
  | some (.float q) => some (floatStr q)
  | some (.bool b) => some (if b then "True" else "False")
  | some (.dict kvs) =>
      match dictGet kvs "@value" with
      | some (.str s) => if pyStrip s == "" then none else some (pyStrip s)
      | _ => none
  | _ => none

/-- `_first_nonempty` (source lines 39-47). -/
def first_nonempty (vals : List (Option Value)) : String :=
  (vals.findSome? nonemptyVal).getD ""

/-- `_as_list` (source lines 49-56). -/
def as_list : Option Value → List String
  | some (.list xs) => (xs.map (fun x => pyStrip (pyStr x))).filter (fun s => s != "")
  | some (.str s) =>
      if pyStrip s == "" then []
      else ((splitOnChar ',' s).map pyStrip).filter (fun t => t != "")
  | _ => []

/-- A data file as the renderers see it: its basename-qualified path, its raw
content, and the value (or failure) each of the two external parsers yields
on that content.  Directory listings are lists of these, in `os.listdir`
order. -/
structure SrcFile where
  name : String
  content : String
  parsedJson : Except String Value
  parsedYaml : Except String Value

/-- `data or []` / `return data if isinstance(data, list) else [data]`
(source lines 75-76 etc.): falsy parse results become `[]`, lists pass
through, anything else truthy is wrapped. -/
def wrapRecords (v : Value) : List Value :=
  match (if truthy v then v else .list []) with
  | .list xs => xs
  | w => [w]

/-- `load_data` (source lines 58-95) on an existing file; parsing itself is
delegated to the `SrcFile` oracles. -/
def load_data (f : SrcFile) : List Value :=
  let content := pyStrip f.content
  if content == "" then []
  else
    let lower := lowerStr f.name
    if endswithAny lower [".json", ".jsonld"] then
      match f.parsedJson with
      | .ok v => wrapRecords v
      | .error _ => []
    else if endswithAny lower [".yaml", ".yml"] then
      match f.parsedYaml with
      | .ok v => wrapRecords v
      | .error _ => []
    else if endswithAny lower [".txt", ".md", ".llm"] then
      let stripped := pyLStrip content
      if strStartsWith stripped "\x7b" || strStartsWith stripped "[" then
        match f.parsedJson with
        | .ok v => wrapRecords v
        | .error _ => []
      else
        match f.parsedYaml with
        | .ok v => wrapRecords v
        | .error _ => []
    else []

/-- `load_data` including the missing-path guard (source line 64). -/
def load_data_at : Option SrcFile → List Value
  | none => []
  | some f => load_data f

/-- `os.path.basename` for forward-slash paths. -/
def basenameOf (p : String) : String :=
  ((splitOnChar '/' p).getLast?).getD p

/-- Root of `os.path.splitext`: drop the last extension, ignoring leading
dots. -/
def dropLastExt (b : String) : String :=
  let cs := b.data
  let lead := cs.takeWhile (fun c => c == '.')
  let rest := cs.drop lead.length
  let afterDot := rest.reverse.dropWhile (fun c => c != '.')
  match afterDot with
  | [] => b
  | _ :: core => String.mk (lead ++ core.reverse)

/-- `_title_from_filename` (source lines 97-99). -/
def title_from_filename (path : String) : String :=
  pyTitle (pyStrip (String.mk ((dropLastExt (basenameOf path)).data.map
    (fun c => if c == '-' || c == '_' then ' ' else c))))

/-- The `(service|item|entry)\s*\d+` full-match of `_is_placeholder_title`. -/
def placeholderPattern (t : String) : Bool :=
  ["service", "item", "entry"].any (fun p =>
    strStartsWith t p &&
      (let rest := (t.drop p.length).data
       let ws := rest.takeWhile Char.isWhitespace
       let ds := rest.drop ws.length
       !ds.isEmpty && ds.all Char.isDigit))

/-- `_is_placeholder_title` (source lines 101-105) on a string argument (all
call sites pass strings). -/
def is_placeholder_title (text : String) : Bool :=
  if pyStrip text == "" then true
  else
    let t := lowerStr (pyStrip text)
    (["service", "unnamed service", "untitled", "n/a", "na", "tbd"].any (fun w => t == w))
      || placeholderPattern t

/-- `_guess_description` (source lines 107-116). -/
def guess_description (obj : Value) : String :=
  first_nonempty [obj.get "description", obj.get "summary", obj.get "details",
    obj.get "body", obj.get "content", obj.get "answer", obj.get "copy"]

/-- `_guess_price` (source lines 118-126). -/
def guess_price (obj : Value) : String :=
  let p := first_nonempty [obj.get "price", obj.get "price_range",
    obj.get "starting_price", obj.get "min_price", obj.get "cost", obj.get "fee"]
  if p == "" then "Contact for pricing" else p

/-- De-duplicate, keeping first occurrences, comparing lowercased
(`_bullet_points`, source lines 141-147). -/
def dedupeByLower (l : List String) : List String :=
  (l.foldl
    (fun (acc : List String × List String) b =>
      if acc.2.contains (lowerStr b) then acc
      else (acc.1 ++ [b], acc.2 ++ [lowerStr b]))
    ([], [])).1

/-- `_bullet_points` (source lines 128-148). -/
def bullet_points (obj : Value) : List String :=
  let feats := as_list (pyOr (obj.get "features")
    (pyOr (obj.get "benefits") (obj.get "highlights")))
  let specs := as_list (pyOr (obj.get "specialties") (obj.get "capabilities"))
  let areas := as_list (pyOr (obj.get "service_areas")
    (pyOr (obj.get "areas") (obj.get "locations_served")))
  let bullets := feats.take 3
  let bullets := if bullets.isEmpty then specs.take 3 else bullets
  let bullets := if areas.isEmpty then bullets
    else bullets ++ ["Service areas: " ++ String.intercalate ", " (areas.take 5)]
  (dedupeByLower bullets).take 4

/-- `_normalize_records` (source lines 181-192). -/
def normalize_records : Value → List Value
  | .list xs => xs
  | .dict kvs =>
      (match dictGet kvs "locations" with
       | some (.list xs) => xs
       | _ =>
         match dictGet kvs "services" with
         | some (.list xs) => xs
         | _ =>
           match dictGet kvs "faqs" with
           | some (.list xs) => xs
           | _ => [.dict kvs])
  | _ => []

/-- String comparison used to model Python `sorted` (code-point
lexicographic). -/
def strLe (a b : String) : Bool := charListLt a.data b.data || a == b

/-- Stable insertion into a sorted list (insert after equals). -/
def insertLe (le : String → String → Bool) (key : α → String) (x : α) :
    List α → List α
  | [] => [x]
  | y :: ys => if le (key y) (key x) then y :: insertLe le key x ys else x :: y :: ys

/-- Stable insertion sort by a string key, modelling Python `sorted`. -/
def sortByKey (key : α → String) (l : List α) : List α :=
  l.foldr (insertLe strLe key) []

/-- `sorted(os.listdir(...))` over a directory listing. -/
def sortFiles (files : List SrcFile) : List SrcFile :=
  sortByKey (fun f => f.name) files

/-- `sorted` over plain strings. -/
def sortStrings (l : List String) : List String :=
  sortByKey (fun s => s) l

/-- Process environment: `GITHUB_REPOSITORY` (`""` when unset). -/
structure Env where
  repoSlug : String

/-- Site branding from `load_org_meta` (source lines 197-224); `""` stands
for Python `None`/empty. -/
structure OrgMeta where
  name : String
  favicon : String
  logo : String
  website : String

/-- `repo_slug.split("/", 1)[-1]`. -/
def splitSlashTail (s : String) : String :=
  match splitOnChar '/' s with
  | [] => s
  | [_] => s
  | _ :: rest => String.intercalate "/" rest

/-- The org-file scan of `load_org_meta` (source lines 206-212): first record
of the first json/yaml/yml file, in sorted filename order, whose `load_data`
is non-empty (the `break` sits inside `if data:`). -/
def firstOrgObj (files : List SrcFile) : Option Value :=
  ((sortFiles files).filter
    (fun f => endswithAny (lowerStr f.name) [".json", ".yaml", ".yml"])).findSome?
    (fun f => (load_data f).head?)

/-- `load_org_meta` (source lines 197-224). -/
def load_org_meta (orgDir : Option (List SrcFile)) (env : Env) : OrgMeta :=
  let org_obj : Option Value :=
    match orgDir with
    | none => none
    | some files => firstOrgObj files
  let base : OrgMeta :=
    match org_obj with
    | some (.dict kvs) =>
        let o : Value := .dict kvs
        { name := first_nonempty [o.get "entity_name", o.get "name",
            o.get "legal_name", o.get "brand", o.get "site_title"]
          logo := first_nonempty [o.get "logo_url", o.get "logo"]
          favicon := first_nonempty [o.get "favicon", o.get "favicon_url"]
          website := first_nonempty [o.get "website", o.get "url"] }
    | _ => { name := "", favicon := "", logo := "", website := "" }
  if base.name == "" then
    { base with name :=
        if env.repoSlug == "" then "Site"
        else pyTitle (String.mk ((splitSlashTail env.repoSlug).data.map
          (fun c => if c == '-' then ' ' else c))) }
  else base

/-- The two wall-clock reads of the footer (`datetime.now().year` and the
formatted `datetime.utcnow()`), treated as opaque inputs of one run. -/
structure PyTime where
  year : Int
  utcStamp : String

/-- `generate_nav` (source lines 229-243). -/
def generate_nav : String :=
  "\n    <nav style=\"background: #2c3e50; padding: 1rem; margin-bottom: 2rem;\">\n        <ul style=\"list-style: none; display: flex; gap: 2rem; margin: 0; padding: 0; flex-wrap: wrap; justify-content: center;\">\n            <li><a href=\"index.html\" style=\"color: white; text-decoration: none;\">Home</a></li>\n            <li><a href=\"about.html\" style=\"color: white; text-decoration: none;\">About</a></li>\n            <li><a href=\"services.html\" style=\"color: white; text-decoration: none;\">Services</a></li>\n            <li><a href=\"awards.html\" style=\"color: white; text-decoration: none;\">Awards</a></li>\n            <li><a href=\"testimonials.html\" style=\"color: white; text-decoration: none;\">Testimonials</a></li>\n            <li><a href=\"faqs.html\" style=\"color: white; text-decoration: none;\">FAQs</a></li>\n            <li><a href=\"help.html\" style=\"color: white; text-decoration: none;\">Help</a></li>\n            <li><a href=\"contact.html\" style=\"color: white; text-decoration: none;\">Contact</a></li>\n        </ul>\n    </nav>\n    "

/-- The `<style>` block and remaining static head markup of `generate_page`
(literal braces written as escapes). -/
def pageStyleAndShell : String :=
  "\">\n    <link rel=\"icon\" type=\"image/png\" sizes=\"32x32\" href=\"icons/favicon-32.png\">\n    <link rel=\"icon\" type=\"image/png\" sizes=\"16x16\" href=\"icons/favicon-16.png\">\n    <link rel=\"apple-touch-icon\" sizes=\"180x180\" href=\"icons/apple-touch-icon.png\">\n    <link rel=\"manifest\" href=\"site.webmanifest\">\n    <style>\n        body \x7b font-family: -apple-system, BlinkMacSystemFont, sans-serif; max-width: 900px; margin: 0 auto; padding: 20px; line-height: 1.7; \x7d\n        h1, h2, h3 \x7b color: #2c3e50; \x7d\n        a \x7b color: #3498db; text-decoration: none; \x7d\n        a:hover \x7b text-decoration: underline; \x7d\n        img \x7b max-width: 100%; height: auto; \x7d\n        .page-header \x7b background: #ecf0f1; padding: 2rem; border-radius: 8px; margin-bottom: 2rem; text-align: center; \x7d\n        .card \x7b border: 1px solid #eee; padding: 1.5rem; border-radius: 8px; margin: 2rem 0; \x7d\n        .badge \x7b background: #3498db; color: white; padding: 0.25rem 0.5rem; border-radius: 4px; font-size: 0.9em; \x7d\n        .muted \x7b color: #6b7280; \x7d\n        code \x7b background: #f3f4f6; padding: 0.1rem 0.25rem; border-radius: 4px; \x7d\n    </style>\n</head>\n<body>\n    "

/-- Everything `generate_page` (source lines 245-288) emits before the
interpolated `content`. -/
def pageHead (org : OrgMeta) (title : String) : String :=
  let site_name := if org.name == "" then "Site" else org.name
  let page_title :=
    if title != "" then escape_html site_name ++ " — " ++ escape_html title
    else escape_html site_name
  let favicon_href := if org.favicon == "" then "favicon.ico" else org.favicon
  "<!DOCTYPE html>\n<html lang=\"en\">\n<head>\n    <meta charset=\"UTF-8\">\n    <title>"
    ++ page_title
    ++ "</title>\n    <meta name=\"application-name\" content=\""
    ++ escape_html site_name
    ++ "\">\n    <meta name=\"viewport\" content=\"width=device-width, initial-scale=1.0\">\n    <meta name=\"theme-color\" content=\"#2c3e50\">\n    <link rel=\"icon\" href=\""
    ++ escape_html favicon_href
    ++ pageStyleAndShell
    ++ generate_nav
    ++ "\n    <div class=\"page-header\">\n        <h1>"
    ++ escape_html (if title == "" then site_name else title)
    ++ "</h1>\n    </div>\n    "

/-- Static footer markup before the timestamp paragraph. -/
def footerPre : String :=
  "\n    <footer style=\"margin-top: 4rem; padding-top: 2rem; border-top: 1px solid #eee; text-align: center; color: #7f8c8d;\">\n        "

/-- The one time-dependent line of every page: the footer paragraph holding
`datetime.now().year` and the formatted `datetime.utcnow()` stamp. -/
def footerLine (t : PyTime) : String :=
  "<p>© " ++ toString t.year ++ " — Auto-generated from structured data. Last updated: "
    ++ t.utcStamp ++ "</p>"

/-- Static closing markup after the timestamp paragraph. -/
def footerPost : String := "\n    </footer>\n</body>\n</html>"

/-- `generate_page` (source lines 245-288): the shared page shell around the
given content, with the wall clock `t` feeding only the footer line. -/
def generate_page (org : OrgMeta) (title content : String) (t : PyTime) : String :=
  pageHead org title ++ content ++ footerPre ++ footerLine t ++ footerPost

/-- `placeholder` (source lines 290-296). -/
def placeholder (title reason : String) : String :=
  "\n    <div class=\"card\">\n        <h2>" ++ escape_html title
    ++ "</h2>\n        <p class=\"muted\">" ++ escape_html reason
    ++ "</p>\n    </div>\n    "

/-- The input tree as the module-level directory resolution (source lines
170-179) leaves it: for each category, `none` when no candidate directory
exists, else that directory's recursive listing in `os.listdir`/walk order.
`awardsDir` models `os.path.exists("schemas/awards")` (source line 680);
`indexFiles` is the relative-path walk of the five marker roots used by the
index page (source lines 320-326). -/
structure Fs where
  orgDir : Option (List SrcFile)
  servicesDir : Option (List SrcFile)
  reviewsDir : Option (List SrcFile)
  faqDir : Option (List SrcFile)
  helpDir : Option (List SrcFile)
  locationsDir : Option (List SrcFile)
  awardsDir : Option (List SrcFile)
  llmDataDir : Option (List SrcFile)
  indexFiles : List String

/-- The empty input tree: no data directory resolved, no files. -/
def emptyFs : Fs :=
  { orgDir := none, servicesDir := none, reviewsDir := none, faqDir := none,
    helpDir := none, locationsDir := none, awardsDir := none,
    llmDataDir := none, indexFiles := [] }

/-- `"★" * n`. -/
def starFill (n : Nat) : String := String.mk (List.replicate n '★')

/-- `"☆" * n`. -/
def starEmpty (n : Nat) : String := String.mk (List.replicate n '☆')

/-- The json/yaml/yml filename filter shared by the structured-data pages. -/
def dataExtOk (f : SrcFile) : Bool :=
  endswithAny (lowerStr f.name) [".json", ".yaml", ".yml"]

/-- The org-record pick of `generate_about_page` (source lines 351-360):
unlike `load_org_meta`, the `break` is unconditional, so only the FIRST
json/yaml/yml filename is ever parsed. -/
def aboutOrgObj (fs : Fs) : Option Value :=
  match fs.orgDir with
  | none => none
  | some files =>
      match (sortFiles files).find? dataExtOk with
      | none => none
      | some f => (load_data f).head?

/-- The service-title collection of `generate_about_page` (source lines
372-383); note it runs `_normalize_records` on each record. -/
def about_service_titles (servicesDir : Option (List SrcFile)) : List String :=
  match servicesDir with
  | none => []
  | some files =>
      (files.filter dataExtOk).flatMap (fun f =>
        (load_data f).flatMap (fun rec =>
          (normalize_records rec).filterMap (fun s =>
            match s with
            | .dict kvs =>
                let t := first_nonempty [Value.get (.dict kvs) "title",
                  Value.get (.dict kvs) "service_name", Value.get (.dict kvs) "name"]
                let t := if is_placeholder_title t then "" else t
                some (if t == "" then title_from_filename f.name else t)
            | _ => none)))

/-- All location records seen by `generate_about_page` (source lines
388-392). -/
def aboutLocRecords (locationsDir : Option (List SrcFile)) : List Value :=
  match locationsDir with
  | none => []
  | some files => (files.filter dataExtOk).flatMap load_data

/-- Service areas gathered into the about page's set (source lines 393-396),
before set-dedup and sorting. -/
def about_service_areas (locationsDir : Option (List SrcFile)) : List String :=
  (aboutLocRecords locationsDir).flatMap (fun loc =>
    match loc with
    | .dict _ => as_list (pyOr (loc.get "service_areas")
        (pyOr (loc.get "areas") (loc.get "locations_served")))
    | _ => [])

/-- Set semantics for the about page's `service_areas` (membership only;
display is sorted, so insertion order is irrelevant). -/
def dedupStrings (l : List String) : List String :=
  (l.foldl (fun (acc : List String) s => if acc.contains s then acc else acc ++ [s]) [])

/-- First phone found across location records (source lines 397-398). -/
def about_phone (locationsDir : Option (List SrcFile)) : String :=
  (((aboutLocRecords locationsDir).filterMap (fun loc =>
    match loc with
    | .dict _ =>
        let p := first_nonempty [loc.get "phone", loc.get "telephone"]
        if p == "" then none else some p
    | _ => none)).head?).getD ""

/-- First email found across location records (source lines 399-400). -/
def about_email (locationsDir : Option (List SrcFile)) : String :=
  (((aboutLocRecords locationsDir).filterMap (fun loc =>
    match loc with
    | .dict _ =>
        let p := first_nonempty [loc.get "email"]
        if p == "" then none else some p
    | _ => none)).head?).getD ""

/-- The positive review ratings collected by `generate_about_page` (source
lines 403-415): `float(rev.get("rating"))` under `try`, keeping `r > 0`. -/
def about_ratings (reviewsDir : Option (List SrcFile)) : List Rat :=
  match reviewsDir with
  | none => []
  | some files =>
      (files.filter dataExtOk).flatMap (fun f =>
        (load_data f).filterMap (fun rev =>
          match rev with
          | .dict _ =>
              match pyFloatOpt (rev.get "rating") with
              | .ok r => if r > 0 then some r else none
              | .error _ => none
          | _ => none))

/-- `avg_rating` (source line 416). -/
def about_avg_rating (reviewsDir : Option (List SrcFile)) : Option Rat :=
  let ratings := about_ratings reviewsDir
  if ratings.isEmpty then none
  else some (ratings.foldl (· + ·) 0 / (ratings.length : Rat))

/-- The `facts` rows of the about page (source lines 423-434). -/
def about_facts (fs : Fs) : List String :=
  let service_titles := about_service_titles fs.servicesDir
  let avg := about_avg_rating fs.reviewsDir
  let areas := dedupStrings (about_service_areas fs.locationsDir)
  let phone := about_phone fs.locationsDir
  let email := about_email fs.locationsDir
  (if service_titles.isEmpty then []
   else ["<strong>Services offered:</strong> " ++ toString service_titles.length])
  ++ (match avg with
      | none => []
      | some a =>
          let n := roundHalfEven a
          ["<strong>Average rating:</strong> " ++ fmt1 a ++ " "
            ++ starFill n.toNat ++ starEmpty (5 - n).toNat])
  ++ (if areas.isEmpty then []
      else ["<strong>Service areas:</strong> "
        ++ escape_html (String.intercalate ", " ((sortStrings areas).take 10))])
  ++ (if phone == "" then [] else ["<strong>Phone:</strong> " ++ escape_html phone])
  ++ (if email == "" then []
      else ["<strong>Email:</strong> <a href=\"mailto:" ++ escape_html email ++ "\">"
        ++ escape_html email ++ "</a>"])

/-- The about page's display name (source line 365). -/
def aboutDisplayName (fs : Fs) (env : Env) : String :=
  let orgD : Value := match aboutOrgObj fs with
    | some (.dict kvs) => .dict kvs
    | _ => .dict []
  let org_meta := load_org_meta fs.orgDir env
  let d := first_nonempty [orgD.get "entity_name", orgD.get "name",
    some (.str org_meta.name)]
  if d == "" then "About Us" else d

/-- The body of `generate_about_page` (source lines 350-455). -/
def about_content (fs : Fs) (env : Env) : String :=
  let orgD : Value := match aboutOrgObj fs with
    | some (.dict kvs) => .dict kvs
    | _ => .dict []
  let org_meta := load_org_meta fs.orgDir env
  let display_name := aboutDisplayName fs env
  let logo_url := first_nonempty [orgD.get "logo_url", orgD.get "logo",
    some (.str org_meta.logo)]
  let desc0 := first_nonempty [orgD.get "description", orgD.get "about"]
  let desc := if desc0 == "" then
      display_name ++ " is a professional firm serving our community with a client-first approach."
    else desc0
  let facts := about_facts fs
  let website := first_nonempty [orgD.get "website", orgD.get "url",
    some (.str org_meta.website)]
  let same_as := as_list (pyOr (orgD.get "sameAs") (orgD.get "same_as"))
  let parts : List String :=
    (if logo_url != "" then
      ["<img src=\"" ++ escape_html logo_url ++ "\" alt=\"" ++ escape_html display_name
        ++ "\" style=\"max-height: 120px; margin-bottom: 2rem;\">"]
     else [])
    ++ ["<p>" ++ escape_html desc ++ "</p>"]
    ++ (if facts.isEmpty then []
        else ["<div class=\"card\"><h2>Facts at a Glance</h2><ul>"
          ++ String.join (facts.map (fun row => "<li>" ++ row ++ "</li>"))
          ++ "</ul></div>"])
    ++ (if website != "" || !same_as.isEmpty then
          [("<h2>Links</h2><ul>"
            ++ String.join
              ((if website != "" then
                  ["<li><a href=\"" ++ escape_html website
                    ++ "\" target=\"_blank\" rel=\"nofollow\">Website</a></li>"]
                else [])
               ++ (same_as.take 12).map (fun s =>
                  "<li><a href=\"" ++ escape_html s ++ "\" target=\"_blank\" rel=\"nofollow\">"
                    ++ escape_html s ++ "</a></li>"))
            ++ "</ul>")]
        else [])
    ++ ["\n    <div class=\"card\">\n        <h2>Ready to Talk?</h2>\n        <p>Have a project in mind or need guidance? We’re here to help.</p>\n        <p><a href=\"contact.html\">Contact us</a> to get started.</p>\n    </div>\n    "]
  String.intercalate "\n" parts

/-- `generate_about_page` (source lines 350-461): output filename and
rendered document. -/
def generate_about_page (fs : Fs) (env : Env) (t : PyTime) : String × String :=
  ("about.html",
    generate_page (load_org_meta fs.orgDir env) (aboutDisplayName fs env)
      (about_content fs env) t)

/-- The title chain of one service card (source lines 644-651). -/
def service_title (svc : Value) (fn : String) : String :=
  let title_candidate := first_nonempty [svc.get "title", svc.get "service_name",
    svc.get "name"]
  let title :=
    if is_placeholder_title title_candidate then
      let kws := as_list (svc.get "keywords")
      if !kws.isEmpty then pyTitle (String.intercalate " / " (kws.take 2))
      else title_candidate
    else title_candidate
  if is_placeholder_title title then title_from_filename fn else title

/-- The record expansion of `generate_services_page` (source lines 634-639):
a mapping with a list under `services` contributes those entries. -/
def servicesExpand (records : List Value) : List Value :=
  records.flatMap (fun rec =>
    match rec with
    | .dict kvs =>
        match dictGet kvs "services" with
        | some (.list xs) => xs
        | _ => [rec]
    | _ => [rec])

/-- One service card (source lines 641-669); non-mapping records are
skipped. -/
def service_item (svc : Value) (fn : String) : Option String :=
  match svc with
  | .dict _ =>
      let title := service_title svc fn
      let description := guess_description svc
      let price := guess_price svc
      let featured := match pyOr (svc.get "featured") (svc.get "is_featured") with
        | some v => truthy v
        | none => false
      let slugV : Value := pyOrV (svc.get "slug") (.str (slugify title))
      let badge := if featured then "<span class=\"badge\">Featured</span>" else ""
      let bullets := bullet_points svc
      let bullet_html :=
        if bullets.isEmpty then ""
        else "<ul>" ++ String.join (bullets.map (fun b => "<li>" ++ escape_html b ++ "</li>"))
          ++ "</ul>"
      some ("\n            <div class=\"card\" id=\"" ++ escape_htmlV slugV
        ++ "\">\n                <h2>" ++ escape_html title ++ " " ++ badge
        ++ "</h2>\n                "
        ++ (if description != "" then "<p>" ++ escape_html description ++ "</p>" else "")
        ++ "\n                " ++ bullet_html
        ++ "\n                <p><strong>Starting at:</strong> " ++ escape_html price
        ++ "</p>\n                <a href=\"#" ++ pyStr slugV
        ++ "\" style=\"display: inline-block; margin-top: 1rem;\">🔗 Permalink</a>\n            </div>\n            ")
  | _ => none

/-- All service cards from a services directory listing (source lines
626-669). -/
def services_items (files : List SrcFile) : List String :=
  ((sortFiles files).filter dataExtOk).flatMap (fun f =>
    (servicesExpand (load_data f)).filterMap (fun svc => service_item svc f.name))

/-- The body of `generate_services_page` (source lines 619-671). -/
def services_content (fs : Fs) : String :=
  match fs.servicesDir with
  | none => placeholder "Our Services"
      "No services folder found yet. Add JSON/YAML files to schemas/services (or services/) to populate this page."
  | some files =>
      let items := services_items files
      if items.isEmpty then placeholder "Our Services" "No usable services found yet."
      else String.join items

/-- `generate_services_page` (source lines 619-675). -/
def generate_services_page (fs : Fs) (env : Env) (t : PyTime) : String × String :=
  ("services.html",
    generate_page (load_org_meta fs.orgDir env) "Our Services" (services_content fs) t)

/-- `_guess_title` of `generate_awards_page` (source lines 686-699). -/
def awards_guess_title (obj : Value) (filename : String) : String :=
  let candidate := first_nonempty [obj.get "title", obj.get "award_name",
    obj.get "certification_name", obj.get "accreditation_name",
    obj.get "license_name", obj.get "name", obj.get "issuer", obj.get "organization"]
  if is_placeholder_title candidate then title_from_filename filename else candidate

/-- One award card (source lines 714-734); non-mapping records are skipped. -/
def awards_item (aw : Value) (filepath : String) : Option String :=
  match aw with
  | .dict _ =>
      let title := awards_guess_title aw filepath
      let desc := first_nonempty [aw.get "description", aw.get "summary",
        aw.get "details", aw.get "notes"]
      let date := first_nonempty [aw.get "date", aw.get "awarded_date", aw.get "year"]
      let org := first_nonempty [aw.get "issuer", aw.get "awarding_body",
        aw.get "organization"]
      let extra := (if date != "" then ["<strong>Date:</strong> " ++ escape_html date] else [])
        ++ (if org != "" then ["<strong>Issuer:</strong> " ++ escape_html org] else [])
      let extra_html := String.intercalate "<br>" extra
      some ("\n            <div class=\"card\">\n                <h2>" ++ escape_html title
        ++ "</h2>\n                "
        ++ (if desc != "" then "<p>" ++ escape_html desc ++ "</p>" else "")
        ++ "\n                "
        ++ (if extra_html != "" then "<p>" ++ extra_html ++ "</p>" else "")
        ++ "\n            </div>\n            ")
  | _ => none

/-- All award cards (source lines 701-734).  Note the awards page checks
`file.endswith` without lowercasing, unlike every other renderer. -/
def awards_items (files : List SrcFile) : List String :=
  ((sortFiles files).filter (fun f => endswithAny f.name [".json", ".yaml", ".yml"])).flatMap
    (fun f => (load_data f).filterMap (fun aw => awards_item aw ("schemas/awards/" ++ f.name)))

/-- The body of `generate_awards_page` (source lines 677-739): the literal
`schemas/awards` path probe, falling back to the fixed no-awards line. -/
def awards_content (fs : Fs) : String :=
  match fs.awardsDir with
  | none => "<p>No awards have been published yet.</p>"
  | some files =>
      let items := awards_items files
      if items.isEmpty then "<p>No awards have been published yet.</p>"
      else String.join items

/-- `generate_awards_page` (source lines 677-745). -/
def generate_awards_page (fs : Fs) (env : Env) (t : PyTime) : String × String :=
  ("awards.html",
    generate_page (load_org_meta fs.orgDir env) "Awards" (awards_content fs) t)

/-- The star rating of one review (source lines 771-775):
`int(float(rev.get("rating", 5)))` under `try` with fallback 5, then clamped
to `[1, 5]`. -/
def review_rating (rev : Value) : Int :=
  let r : Int :=
    match pyFloat ((rev.get "rating").getD (.int 5)) with
    | .ok q => pyTrunc q
    | .error _ => 5
  max 1 (min 5 r)

/-- `star_display` (source line 777): filled stars then empty stars. -/
def star_display (rating : Int) : String :=
  starFill rating.toNat ++ starEmpty (5 - rating).toNat

/-- One testimonial block (source lines 765-787); non-mapping records are
skipped. -/
def review_item (rev : Value) : Option String :=
  match rev with
  | .dict _ =>
      let author := first_nonempty [rev.get "customer_name", rev.get "author",
        some (.str "Anonymous")]
      let entity := first_nonempty [rev.get "entity_name", some (.str "")]
      let quote := first_nonempty [rev.get "review_body", rev.get "quote",
        rev.get "review_title", some (.str "No review text provided.")]
      let rating := review_rating rev
      let date := first_nonempty [rev.get "date", some (.str "")]
      some ("\n            <blockquote class=\"card\" style=\"font-style: italic;\">\n                <p>“"
        ++ escape_html quote
        ++ "”</p>\n                <footer style=\"margin-top: 1rem; font-style: normal;\">\n                    — "
        ++ escape_html author
        ++ (if entity != "" then ", " ++ escape_html entity else "")
        ++ "\n                    "
        ++ (if date != "" then "<br/><small>" ++ escape_html date ++ "</small>" else "")
        ++ "\n                </footer>\n                <div style=\"margin-top: 0.5rem; color: #f39c12;\">"
        ++ star_display rating
        ++ "</div>\n            </blockquote>\n            ")
  | _ => none

/-- All testimonial blocks (source lines 758-787). -/
def testimonials_items (files : List SrcFile) : List String :=
  ((sortFiles files).filter dataExtOk).flatMap
    (fun f => (load_data f).filterMap review_item)

/-- The body of `generate_testimonials_page` (source lines 747-789). -/
def testimonials_content (fs : Fs) : String :=
  match fs.reviewsDir with
  | none => placeholder "Testimonials"
      "No reviews folder found yet. Add JSON/YAML files to schemas/reviews (or reviews/) to populate this page."
  | some files =>
      let items := testimonials_items files
      if items.isEmpty then placeholder "Testimonials" "No usable reviews found yet."
      else String.join items

/-- `generate_testimonials_page` (source lines 747-793). -/
def generate_testimonials_page (fs : Fs) (env : Env) (t : PyTime) : String × String :=
  ("testimonials.html",
    generate_page (load_org_meta fs.orgDir env) "Testimonials" (testimonials_content fs) t)

/-- `(x or "").strip()` on a raw record field: raises (`AttributeError`)
when the field holds a truthy non-string. -/
def pyStripOr (v : Value) : Except Unit String :=
  match v with
  | .str s => .ok (pyStrip s)
  | _ => .error ()

/-- One FAQ card (source lines 809-821): records without a question are
skipped; `.strip()` on a truthy non-string question or answer raises. -/
def faq_item (item : Value) : Except Unit (Option String) :=
  match item with
  | .dict _ => do
      let question ← pyStripOr (pyOrV (item.get "question") (.str ""))
      let answer ← pyStripOr (pyOrV (item.get "answer") (.str ""))
      if question == "" then .ok none
      else .ok (some ("\n            <div class=\"card\">\n                <h3 style=\"margin: 0 0 0.5rem 0;\">"
        ++ escape_html question
        ++ "</h3>\n                <p>"
        ++ escape_html answer
        ++ "</p>\n            </div>\n            "))
  | _ => .ok none

/-- All FAQ cards, in file order (source lines 802-821).  Note the loader
output is iterated directly: `_normalize_records` is never applied here. -/
def faq_items (files : List SrcFile) : Except Unit (List String) :=
  ((sortFiles files).filter dataExtOk).foldlM
    (fun acc f =>
      (load_data f).foldlM
        (fun acc2 item => do
          match ← faq_item item with
          | some h => pure (acc2 ++ [h])
          | none => pure acc2)
        acc)
    []

/-- The body of `generate_faq_page` (source lines 795-823). -/
def faq_content (fs : Fs) : Except Unit String :=
  match fs.faqDir with
  | none => .ok (placeholder "FAQs"
      "No FAQ folder found yet. Add JSON/YAML files to schemas/faqs (or faq-schemas/) to populate this page.")
  | some files => do
      let items ← faq_items files
      pure (if items.isEmpty then placeholder "FAQs" "No usable FAQs found yet."
        else String.join items)

/-- `generate_faq_page` (source lines 795-827). -/
def generate_faq_page (fs : Fs) (env : Env) (t : PyTime) :
    Except Unit (String × String) :=
  (faq_content fs).map (fun c =>
    ("faqs.html",
      generate_page (load_org_meta fs.orgDir env) "Frequently Asked Questions" c t))

/-- Python `str.splitlines` for newline-separated text (no trailing empty
line). -/
def pySplitlines (s : String) : List String :=
  let l := splitOnChar '\n' s
  match l.getLast? with
  | some "" => l.dropLast
  | _ => l

/-- `line.split(":", 1)[1]`. -/
def splitAfterFirstColon (line : String) : String :=
  match splitOnChar ':' line with
  | [] => ""
  | [_] => ""
  | _ :: rest => String.intercalate ":" rest

/-- State of the frontmatter scan of `generate_help_articles_page` (source
lines 864-880). -/
structure HelpParse where
  title : Option String
  body : List String
  inFm : Bool
  fmDone : Bool

/-- One line of the frontmatter scan (source lines 869-880). -/
def helpParseStep (acc : HelpParse) (line : String) : HelpParse :=
  if pyStrip line == "---" && !acc.fmDone then
    let inFm := !acc.inFm
    { acc with inFm := inFm, fmDone := if !inFm then true else acc.fmDone }
  else if acc.inFm && !acc.fmDone then
    if strStartsWith (lowerStr line) "title:" then
      { acc with title := some (pyStrip (splitAfterFirstColon line)) }
    else acc
  else { acc with body := acc.body ++ [line] }

/-- Frontmatter title (if any) and body lines of a help article. -/
def help_parse (content : String) : Option String × List String :=
  let r := (pySplitlines content).foldl helpParseStep
    { title := none, body := [], inFm := false, fmDone := false }
  (r.title, r.body)

/-- Markdown-ish line rendering (source lines 885-896). -/
def help_line_html (line : String) : String :=
  if strStartsWith line "## " then "<h2>" ++ escape_html (line.drop 3) ++ "</h2>"
  else if strStartsWith line "# " then "<h1>" ++ escape_html (line.drop 2) ++ "</h1>"
  else if strStartsWith line "- " || strStartsWith line "* " then
    "<p>• " ++ escape_html (line.drop 2) ++ "</p>"
  else if pyStrip line == "" then "<br/>"
  else "<p>" ++ escape_html line ++ "</p>"

/-- One help article card (source lines 860-903); an absent or empty
frontmatter title falls back to the filename. -/
def help_article (f : SrcFile) : String :=
  let parsed := help_parse f.content
  let t0 := parsed.1.getD ""
  let title := if t0 == "" then title_from_filename f.name else t0
  "\n        <div class=\"card\">\n            <h2>" ++ escape_html title
    ++ "</h2>\n            "
    ++ String.join (parsed.2.map help_line_html)
    ++ "\n        </div>\n        "

/-- The help source selection (source lines 830-836): the resolved
help-articles directory, else the llm-data directory when it holds markdown
files. -/
def help_source (fs : Fs) : Option (List SrcFile) :=
  match fs.helpDir with
  | some files => some files
  | none =>
      match fs.llmDataDir with
      | some files =>
          if (files.filter (fun f => strEndsWith (lowerStr f.name) ".md")).isEmpty then none
          else some files
      | none => none

/-- The body of `generate_help_articles_page` (source lines 829-906). -/
def help_content (fs : Fs) : String :=
  match help_source fs with
  | none => placeholder "Help Center"
      "No help-articles folder found yet. Add .md files to schemas/help-articles (or help-articles/) to populate this page."
  | some files =>
      let mds := sortFiles (files.filter (fun f => strEndsWith (lowerStr f.name) ".md"))
      if mds.isEmpty then placeholder "Help Center" "No .md help articles found yet."
      else String.join (mds.map help_article)

/-- `generate_help_articles_page` (source lines 829-908). -/
def generate_help_articles_page (fs : Fs) (env : Env) (t : PyTime) : String × String :=
  ("help.html",
    generate_page (load_org_meta fs.orgDir env) "Help Center" (help_content fs) t)

/-- `city, state` sub-part of `_format_address` (source lines 488, 496):
`None` when both components are empty. -/
def cityState (city state : String) : Option String :=
  if city != "" || state != "" then
    some (String.intercalate ", " ([city, state].filter (fun p => p != "")))
  else none

/-- `" ".join([p for p in parts if p]).strip()` (source lines 489, 497). -/
def addr_join (line1 line2 : String) (cs : Option String) (zipc : String) : String :=
  pyStrip (String.intercalate " "
    ((([line1, line2] : List String)
      ++ (match cs with | some c => [c] | none => [])
      ++ [zipc]).filter (fun p => p != "")))

/-- The component fallback of `_format_address` (source lines 490-497). -/
def addrComponentFallback (loc : Value) : String :=
  let line1 := first_nonempty [loc.get "address_street", loc.get "streetAddress",
    loc.get "street"]
  let line2 := first_nonempty [loc.get "address2", loc.get "suite"]
  let city := first_nonempty [loc.get "address_city", loc.get "city"]
  let state := first_nonempty [loc.get "address_state", loc.get "state",
    loc.get "addressRegion"]
  let zipc := first_nonempty [loc.get "address_postal_code", loc.get "postalCode",
    loc.get "zip"]
  addr_join line1 line2 (cityState city state) zipc

/-- `_format_address` (source lines 478-497). -/
def format_address (loc : Value) : String :=
  match loc.get "address" with
  | some (.str a) =>
      if pyStrip a != "" then pyStrip a else addrComponentFallback loc
  | some (.dict kvs) =>
      let a : Value := .dict kvs
      let line1 := first_nonempty [a.get "streetAddress", a.get "address1",
        a.get "addressLine1"]
      let line2 := first_nonempty [a.get "address2", a.get "addressLine2",
        a.get "suite"]
      let city := first_nonempty [a.get "addressLocality", a.get "city"]
      let state := first_nonempty [a.get "addressRegion", a.get "state"]
      let zipc := first_nonempty [a.get "postalCode", a.get "zip", a.get "zipCode"]
      addr_join line1 line2 (cityState city state) zipc
  | _ => addrComponentFallback loc

/-- One `openingHoursSpecification` row (source lines 506-517); rows without
a day or without both times contribute nothing. -/
def hours_row (r : Value) : Option String :=
  match r with
  | .dict _ =>
      let day0 := first_nonempty [r.get "dayOfWeek", r.get "day", r.get "weekday"]
      let day := if (splitOnChar '/' day0).length > 1 then
          ((splitOnChar '/' day0).getLast?).getD day0
        else day0
      let opens := first_nonempty [r.get "opens", r.get "openingTime"]
      let closes := first_nonempty [r.get "closes", r.get "closingTime"]
      if day != "" && (opens != "" || closes != "") then
        some (day ++ ": " ++ (if opens != "" then opens else "—") ++ " – "
          ++ (if closes != "" then closes else "—"))
      else none
  | _ => none

/-- `_extract_hours` (source lines 499-520). -/
def extract_hours (loc : Value) : String :=
  let hours := first_nonempty [loc.get "hours", loc.get "openingHours",
    loc.get "opening_hours", loc.get "business_hours"]
  if hours != "" then hours
  else
    match pyOr (loc.get "openingHoursSpecification")
        (loc.get "opening_hours_specification") with
    | some (.list spec) =>
        if spec.isEmpty then ""
        else
          let rows := spec.filterMap hours_row
          if rows.isEmpty then "" else String.intercalate "; " rows
    | _ => ""

/-- The lazy `loc.get(k) or (loc.get("geo") or {}).get(k)` lookup of
`_map_embed_src` (source lines 464-465): the geo sub-lookup (which raises on
a truthy non-mapping `geo`) only runs when the top-level field is falsy. -/
def mapCoordLookup (loc : Value) (key : String) : Except Unit (Option Value) :=
  match loc.get key with
  | some v =>
      if truthy v then .ok (some v)
      else dictGetE (pyOrV (loc.get "geo") (.dict [])) key
  | none => dictGetE (pyOrV (loc.get "geo") (.dict [])) key

/-- `isinstance(v, (int, float))`: ints, floats, and bools (Python `bool`
subclasses `int`); `None` and everything else fail. -/
def isNumPy : Option Value → Bool
  | some (.int _) => true
  | some (.float _) => true
  | some (.bool _) => true
  | _ => false

/-- Uppercase hex digit. -/
def hexDigit (n : Nat) : Char :=
  if n < 10 then Char.ofNat (48 + n) else Char.ofNat (55 + n)

/-- UTF-8 bytes of one code point. -/
def utf8Bytes (n : Nat) : List Nat :=
  if n < 128 then [n]
  else if n < 2048 then [192 + n / 64, 128 + n % 64]
  else if n < 65536 then [224 + n / 4096, 128 + (n / 64) % 64, 128 + n % 64]
  else [240 + n / 262144, 128 + (n / 4096) % 64, 128 + (n / 64) % 64, 128 + n % 64]

/-- `urllib.parse.quote_plus` on one character. -/
def quotePlusChar (c : Char) : String :=
  if c.isAlphanum || c == '_' || c == '.' || c == '-' || c == '~' then
    String.singleton c
  else if c == ' ' then "+"
  else String.join ((utf8Bytes c.toNat).map (fun n =>
    String.mk ['%', hexDigit (n / 16), hexDigit (n % 16)]))

/-- `urllib.parse.quote_plus`. -/
def quote_plus (s : String) : String :=
  String.join (s.data.map quotePlusChar)

/-- `_map_embed_src` (source lines 463-476). -/
def map_embed_src (loc : Value) (address : String) : Except Unit String := do
  let lat ← mapCoordLookup loc "latitude"
  let lng ← mapCoordLookup loc "longitude"
  if isNumPy lat && isNumPy lng then
    return "https://www.google.com/maps?q=" ++ pyStr (lat.getD .null) ++ ","
      ++ pyStr (lng.getD .null) ++ "&z=15&output=embed"
  else
    let map_url := first_nonempty [loc.get "map_embed_url", loc.get "map",
      loc.get "map_iframe"]
    let gmaps := first_nonempty [loc.get "google_maps_url", loc.get "maps_url",
      loc.get "map_url"]
    if map_url != "" then return map_url
    else if gmaps != "" then return gmaps
    else if address != "" then
      return "https://www.google.com/maps?q=" ++ quote_plus address ++ "&output=embed"
    else return ""

/-- Accumulator of the contact-page location loop (source lines 533-595). -/
structure ContactAcc where
  items : List String
  first_name : String
  first_phone : String
  first_email : String
  records_seen : Nat

/-- One location record of the contact page (source lines 548-595):
non-mapping records are skipped; the contact-point and map lookups can
raise. -/
def contact_loc_step (acc : ContactAcc) (loc : Value) : Except Unit ContactAcc :=
  match loc with
  | .dict _ => do
      let name := first_nonempty [loc.get "entity_name", loc.get "location_name",
        loc.get "name", some (.str "Location")]
      let cpPhone ← dictGetE (pyOrV (loc.get "contactPoint") (.dict [])) "telephone"
      let phone := first_nonempty [loc.get "phone", loc.get "telephone", cpPhone]
      let cpEmail ← dictGetE (pyOrV (loc.get "contactPoint") (.dict [])) "email"
      let email := first_nonempty [loc.get "email", cpEmail]
      let person := first_nonempty [loc.get "contact_person", loc.get "contact",
        loc.get "contact_name"]
      let addr := format_address loc
      let hours := extract_hours loc
      let site := first_nonempty [loc.get "website", loc.get "url", loc.get "homepage"]
      let socials := as_list (pyOr (loc.get "sameAs") (pyOr (loc.get "same_as")
        (pyOr (loc.get "social") (loc.get "social_links"))))
      let map_src ← map_embed_src loc addr
      let block := "<div class=" ++ sq ++ "card" ++ sq ++ ">"
        ++ "<h3>" ++ escape_html name ++ "</h3><p>"
        ++ (if person != "" then "<strong>Contact:</strong> " ++ escape_html person ++ "<br>" else "")
        ++ (if addr != "" then "<strong>Address:</strong> " ++ escape_html addr ++ "<br>" else "")
        ++ (if hours != "" then "<strong>Hours:</strong> " ++ escape_html hours ++ "<br>" else "")
        ++ (if site != "" then "<strong>Website:</strong> <a href=" ++ sq ++ escape_html site
              ++ sq ++ " target=" ++ sq ++ "_blank" ++ sq ++ " rel=" ++ sq ++ "nofollow" ++ sq
              ++ ">" ++ escape_html site ++ "</a><br>" else "")
        ++ "</p>"
        ++ (if socials.isEmpty then ""
            else "<p><strong>Find us:</strong> "
              ++ String.intercalate " • " ((socials.take 8).map (fun s =>
                  "<a href=" ++ sq ++ escape_html s ++ sq ++ " target=" ++ sq ++ "_blank"
                    ++ sq ++ " rel=" ++ sq ++ "nofollow" ++ sq ++ ">" ++ escape_html s ++ "</a>"))
              ++ "</p>")
        ++ (if map_src != "" then
              "\n                <div style=\"margin-top: 1rem;\">\n                    <iframe src=\""
                ++ escape_html map_src
                ++ "\" width=\"100%\" height=\"320\"\n                            style=\"border:0; border-radius: 8px;\" allowfullscreen loading=\"lazy\"></iframe>\n                </div>\n                "
            else "")
        ++ "</div>"
      .ok { items := acc.items ++ [block]
            first_name := if acc.first_name == "" then name else acc.first_name
            first_phone := if acc.first_phone == "" && phone != "" then phone
              else acc.first_phone
            first_email := if acc.first_email == "" && email != "" then email
              else acc.first_email
            records_seen := acc.records_seen + 1 }
  | _ => .ok acc

/-- The file loop of the contact page (source lines 538-595); also returns
`files_seen`.  `_normalize_records` is applied to the whole loader output (a
list), so it is the identity here. -/
def contact_scan (files : List SrcFile) : Except Unit (ContactAcc × Nat) :=
  (sortFiles files).foldlM
    (fun (st : ContactAcc × Nat) f =>
      if !dataExtOk f then .ok st
      else
        let files_seen := st.2 + 1
        let data := load_data f
        if data.isEmpty then .ok (st.1, files_seen)
        else do
          let acc ← (normalize_records (.list data)).foldlM contact_loc_step st.1
          .ok (acc, files_seen))
    ({ items := [], first_name := "", first_phone := "", first_email := "",
       records_seen := 0 }, 0)

/-- The body of `generate_contact_page` (source lines 522-611). -/
def contact_content (fs : Fs) : Except Unit String :=
  match fs.locationsDir with
  | none => .ok (placeholder "Contact Us"
      "No locations folder found yet. Add location JSON/YAML files to your locations folder (or schemas/locations) to populate this page.")
  | some files => do
      let st ← contact_scan files
      let acc := st.1
      let intro := "<p>We’d love to hear from you. Reach out using the details below or visit us at our offices.</p>"
      let quick :=
        if acc.first_name != "" || acc.first_phone != "" || acc.first_email != "" then
          "<div class=" ++ sq ++ "card" ++ sq ++ "><h2>Quick Contact</h2>"
            ++ (if acc.first_name != "" then
                  "<p><strong>" ++ escape_html acc.first_name ++ "</strong></p>" else "")
            ++ (if acc.first_phone != "" then
                  "<p><strong>Phone:</strong> <a href=" ++ sq ++ "tel:"
                    ++ escape_html acc.first_phone ++ sq ++ ">"
                    ++ escape_html acc.first_phone ++ "</a></p>" else "")
            ++ (if acc.first_email != "" then
                  "<p><strong>Email:</strong> <a href=" ++ sq ++ "mailto:"
                    ++ escape_html acc.first_email ++ sq ++ ">"
                    ++ escape_html acc.first_email ++ "</a></p>" else "")
            ++ "</div>"
        else ""
      let body :=
        if acc.items.isEmpty then
          placeholder "Locations" ("No usable locations found (scanned "
            ++ toString st.2 ++ " files, " ++ toString acc.records_seen ++ " records).")
        else String.join acc.items
      .ok (intro ++ quick ++ body)

/-- `generate_contact_page` (source lines 522-617). -/
def generate_contact_page (fs : Fs) (env : Env) (t : PyTime) :
    Except Unit (String × String) :=
  (contact_content fs).map (fun c =>
    ("contact.html",
      generate_page (load_org_meta fs.orgDir env) "Contact Us" c t))

/-- The quick-navigation list of the index page (source lines 305-317). -/
def quick_links : String :=
  String.intercalate "\n"
    (([("About Us", "about.html"), ("Our Services", "services.html"),
       ("Testimonials", "testimonials.html"), ("FAQs", "faqs.html"),
       ("Help Center", "help.html"), ("Contact Us", "contact.html"),
       ("Browse All Files", "#files")] : List (String × String)).map (fun p =>
      "<li style=\"margin: 0.5rem 0;\"><a href=\"" ++ p.2
        ++ "\" style=\"font-size: 1.1em; font-weight: 500;\">" ++ escape_html p.1
        ++ "</a></li>"))

/-- The machine-readable file list of the index page (source lines 319-332). -/
def index_file_links (env : Env) (indexFiles : List String) : List String :=
  let base_url := if env.repoSlug == "" then ""
    else "https://raw.githubusercontent.com/" ++ env.repoSlug ++ "/main"
  (indexFiles.filter (fun p =>
      endswithAny (lowerStr p) [".json", ".yaml", ".yml", ".md", ".llm", ".txt", ".jsonl"])).map
    (fun rel =>
      let display_path := if strStartsWith rel "schemas/" then rel.replace "schemas/" ""
        else rel
      let href := if base_url == "" then rel else base_url ++ "/" ++ rel
      "<li><a href=\"" ++ href ++ "\" target=\"_blank\">" ++ escape_html display_path
        ++ "</a></li>")

/-- The body of `generate_index_page` (source lines 301-344). -/
def index_content (fs : Fs) (env : Env) : String :=
  let file_links := index_file_links env fs.indexFiles
  "\n    <p>Welcome to our AI-optimized public data hub. Use the quick navigation below, or browse all machine-readable files.</p>\n    <h2>🚀 Quick Navigation</h2>\n    <ul style=\"list-style: none; padding: 0;\">\n        "
    ++ quick_links
    ++ "\n    </ul>\n    <h2 id=\"files\">📁 All Files</h2>\n    <ul>\n        "
    ++ (if file_links.isEmpty then "<li class=\"muted\">No files found yet.</li>"
        else String.join (sortStrings file_links))
    ++ "\n    </ul>\n    "

/-- The index page title (source lines 303, 346). -/
def index_title (fs : Fs) (env : Env) : String :=
  let org := load_org_meta fs.orgDir env
  "Welcome to " ++ (if org.name == "" then "Site" else org.name)

/-- `generate_index_page` (source lines 301-348). -/
def generate_index_page (fs : Fs) (env : Env) (t : PyTime) : String × String :=
  ("index.html",
    generate_page (load_org_meta fs.orgDir env) (index_title fs env)
      (index_content fs env) t)

/-- A renderer outcome as the driver records it: `none` when the renderer
raised (its output file is then not written). -/
def exceptToOption : Except Unit (String × String) → Option (String × String)
  | .ok x => some x
  | .error _ => none

/-- One full run: the eight renderer outcomes, in the driver's order (source
lines 946-955). -/
def runAll (fs : Fs) (env : Env) (t : PyTime) : List (Option (String × String)) :=
  [some (generate_index_page fs env t),
   some (generate_about_page fs env t),
   some (generate_services_page fs env t),
   some (generate_awards_page fs env t),
   some (generate_testimonials_page fs env t),
   exceptToOption (generate_faq_page fs env t),
   some (generate_help_articles_page fs env t),
   exceptToOption (generate_contact_page fs env t)]

/-- The eight output filenames, in driver order (source lines 946-955). -/
def pageFiles : List String :=
  ["index.html", "about.html", "services.html", "awards.html",
   "testimonials.html", "faqs.html", "help.html", "contact.html"]

/-- Whether a renderer outcome is a non-exception. -/
def exceptOk : Except ε α → Bool
  | .ok _ => true
  | .error _ => false

/-- The driver loop (source lines 957-963), abstracted over what each
generator call does: every generator is invoked in order inside its own
`try`, and `ok` is cleared by any exception.  Returns the invocation trace
and the final `ok` flag. -/
def driverRun (outcome : String → Except String Unit) : List String × Bool :=
  pageFiles.foldl
    (fun acc fn => (acc.1 ++ [fn], acc.2 && exceptOk (outcome fn)))
    ([], true)

/-- The process exit code (source lines 965-967): `sys.exit(2)` when any
generator raised, else the implicit 0. -/
def driverExitCode (outcome : String → Except String Unit) : Nat :=
  if (driverRun outcome).2 then 0 else 2

/-- A `.json` file whose content is the empty JSON mapping: `json.loads`
yields `{}`, which is falsy. -/
def emptyMapJson : SrcFile :=
  { name := "empty.json", content := "\x7b\x7d",
    parsedJson := .ok (.dict []), parsedYaml := .ok (.dict []) }

/-- A `.json` file holding a two-record list (used as a loader witness). -/
def twoRecordJson : SrcFile :=
  { name := "data.json",
    content := "[\x7b\"title\": \"A\"\x7d, \x7b\"title\": \"B\"\x7d]",
    parsedJson := .ok (.list [.dict [("title", .str "A")], .dict [("title", .str "B")]]),
    parsedYaml := .error "unused" }

/-- The inner FAQ record of `faqWrapperRecord`. -/
def faqInnerRecord : Value :=
  .dict [("question", .str "What areas do you serve?"), ("answer", .str "Statewide.")]

/-- A top-level mapping wrapping a FAQ list under the known key `faqs`. -/
def faqWrapperRecord : Value := .dict [("faqs", .list [faqInnerRecord])]

/-- A `.json` FAQ file whose payload is the `faqs` wrapper mapping. -/
def faqWrapperFile : SrcFile :=
  { name := "faqs.json",
    content := "\x7b\"faqs\": [\x7b\"question\": \"What areas do you serve?\", \"answer\": \"Statewide.\"\x7d]\x7d",
    parsedJson := .ok faqWrapperRecord, parsedYaml := .error "unused" }

/-- A `.txt` file whose content is a valid JSON service record. -/
def txtServiceFile : SrcFile :=
  { name := "consulting.txt",
    content := "\x7b\"title\": \"Tax Advisory\"\x7d",
    parsedJson := .ok (.dict [("title", .str "Tax Advisory")]),
    parsedYaml := .error "unused" }

/-- A service record with the generic title `"Service"` and a usable
keywords list. -/
def kwService : Value :=
  .dict [("title", .str "Service"), ("keywords", .list [.str "roofing"])]

/-- A reviews file holding three records rated 5, 3 and 4. -/
def reviewsFile543 : SrcFile :=
  { name := "reviews.json",
    content := "[\x7b\"rating\": 5\x7d, \x7b\"rating\": 3\x7d, \x7b\"rating\": 4\x7d]",
    parsedJson := .ok (.list [.dict [("rating", .int 5)], .dict [("rating", .int 3)],
      .dict [("rating", .int 4)]]),
    parsedYaml := .error "unused" }

/-- An input tree whose only data is `reviewsFile543`. -/
def fsReviews543 : Fs := { emptyFs with reviewsDir := some [reviewsFile543] }

/-- A location record with explicit numeric coordinates, the latitude being
the (falsy) number 0, plus an explicit map URL. -/
def zeroLatLoc : Value :=
  .dict [("latitude", .int 0), ("longitude", .int 7),
    ("map", .str "https://maps.example.com/embed")]

/-- A location record with numeric coordinates in a `geo` sub-mapping. -/
def geoLoc : Value :=
  .dict [("geo", .dict [("latitude", .int 40), ("longitude", .int (-74))])]

/-- Two renderer outcomes (one per run time) that agree except inside the
footer timestamp paragraph: either both runs raised, or both wrote the same
filename and the same document text apart from `footerLine`. -/
def tsOnlyDiff (t1 t2 : PyTime) (a b : Option (String × String)) : Prop :=
  (a = none ∧ b = none) ∨
  ∃ fn pre suf, a = some (fn, pre ++ footerLine t1 ++ suf)
    ∧ b = some (fn, pre ++ footerLine t2 ++ suf)

/-! ### General lemmas -/

/-- The driver fold invokes every listed generator and conjoins their
outcomes. -/
theorem driver_foldl (outcome : String → Except String Unit) :
    ∀ (l : List String) (a : List String) (b : Bool),
      l.foldl (fun acc fn => (acc.1 ++ [fn], acc.2 && exceptOk (outcome fn))) (a, b)
        = (a ++ l, b && l.all (fun fn => exceptOk (outcome fn)))
  | [], a, b => by simp
  | x :: xs, a, b => by
      simp only [List.foldl_cons, List.all_cons]
      rw [driver_foldl outcome xs]
      simp [Bool.and_assoc]

/-- Closed form of `driverRun`. -/
theorem driverRun_eq (outcome : String → Except String Unit) :
    driverRun outcome
      = (pageFiles, pageFiles.all (fun fn => exceptOk (outcome fn))) := by
  simpa [driverRun] using driver_foldl outcome pageFiles [] true

/-- `exceptOk` characterises non-raising unit outcomes. -/
theorem exceptOk_iff (e : Except String Unit) : exceptOk e = true ↔ e = .ok () := by
  cases e with
  | ok u => cases u; simp [exceptOk]
  | error _ => simp [exceptOk]

/-- Every generated document splits around the footer timestamp line, with
both sides independent of the wall clock. -/
theorem generate_page_factor (org : OrgMeta) (title content : String) (t : PyTime) :
    generate_page org title content t
      = (pageHead org title ++ content ++ footerPre) ++ footerLine t ++ footerPost := rfl

/-- Inserting an element that fails the predicate leaves a filtered list
unchanged. -/
theorem filter_insertLe_neg {α : Type} (le : String → String → Bool) (key : α → String)
    (p : α → Bool) (x : α) (hx : p x = false) :
    ∀ l : List α, (insertLe le key x l).filter p = l.filter p
  | [] => by simp [insertLe, hx]
  | y :: ys => by
      rw [insertLe]
      by_cases h : le (key y) (key x) = true
      · simp only [h, if_true, List.filter_cons]
        rw [filter_insertLe_neg le key p x hx ys]
      · simp only [h]
        simp [hx]

/-- Core `Rat.floor` agrees with the floor of the `FloorRing` instance. -/
theorem ratFloor_eq_floor (q : Rat) : q.floor = ⌊q⌋ := rfl

/-- Rounding an integer-valued rational returns that integer. -/
theorem roundHalfEven_int (n : Int) : roundHalfEven ((n : Int) : Rat) = n := by
  unfold roundHalfEven
  rw [ratFloor_eq_floor, Int.floor_intCast]
  norm_num

/-! ### Claim C1 -/

/-- C1: for every run of the top-level driver — whatever each generator call
does — all 8 page renderers are invoked in order (an exception from one is
caught by its own `try` and never stops the loop or escapes the driver), and
the process exit code is 0 exactly when all 8 completed without raising,
else 2. -/
theorem C1_driver_invokes_all_and_exit_code (outcome : String → Except String Unit) :
    (driverRun outcome).1 = pageFiles ∧
    pageFiles.length = 8 ∧
    driverExitCode outcome
      = (if pageFiles.all (fun fn => exceptOk (outcome fn)) then 0 else 2) ∧
    (driverExitCode outcome = 0 ↔ ∀ fn ∈ pageFiles, outcome fn = .ok ()) := by
  refine ⟨by rw [driverRun_eq], rfl, by rw [driverExitCode, driverRun_eq], ?_⟩
  rw [driverExitCode, driverRun_eq]
  cases h : pageFiles.all (fun fn => exceptOk (outcome fn)) with
  | true =>
      rw [if_pos rfl]
      refine ⟨fun _ fn hfn => ?_, fun _ => rfl⟩
      exact (exceptOk_iff (outcome fn)).mp (List.all_eq_true.mp h fn hfn)
  | false =>
      rw [if_neg (by simp)]
      constructor
      · intro h0; exact absurd h0 (by norm_num)
      · intro hall
        have : pageFiles.all (fun fn => exceptOk (outcome fn)) = true :=
          List.all_eq_true.mpr fun fn hfn => (exceptOk_iff (outcome fn)).mpr (hall fn hfn)
        rw [h] at this
        exact absurd this (by norm_num)

/-- C1 witness: with all renderers succeeding the exit code is 0; with one
renderer raising, all 8 are still invoked and the exit code is 2. -/
theorem C1_driver_invokes_all_and_exit_code_witness :
    driverExitCode (fun _ => Except.ok ()) = 0 ∧
    driverExitCode (fun fn => if fn == "about.html" then Except.error "boom" else .ok ()) = 2 ∧
    (driverRun (fun fn => if fn == "about.html" then Except.error "boom" else .ok ())).1
      = pageFiles := by
  refine ⟨(C1_driver_invokes_all_and_exit_code (fun _ => Except.ok ())).2.2.2.mpr
    (fun fn _ => rfl), ?_, (C1_driver_invokes_all_and_exit_code _).1⟩
  rw [(C1_driver_invokes_all_and_exit_code _).2.2.1]
  decide

/-! ### Claim C2 -/

set_option maxRecDepth 8000 in
/-- The services placeholder reason contains no HTML metacharacters. -/
theorem escape_reason_services :
    escape_html "No services folder found yet. Add JSON/YAML files to schemas/services (or services/) to populate this page."
      = "No services folder found yet. Add JSON/YAML files to schemas/services (or services/) to populate this page." := by
  decide

set_option maxRecDepth 8000 in
/-- The locations placeholder reason contains no HTML metacharacters. -/
theorem escape_reason_locations :
    escape_html "No locations folder found yet. Add location JSON/YAML files to your locations folder (or schemas/locations) to populate this page."
      = "No locations folder found yet. Add location JSON/YAML files to your locations folder (or schemas/locations) to populate this page." := by
  decide

set_option maxRecDepth 8000 in
/-- The reviews placeholder reason contains no HTML metacharacters. -/
theorem escape_reason_reviews :
    escape_html "No reviews folder found yet. Add JSON/YAML files to schemas/reviews (or reviews/) to populate this page."
      = "No reviews folder found yet. Add JSON/YAML files to schemas/reviews (or reviews/) to populate this page." := by
  decide

set_option maxRecDepth 8000 in
/-- The FAQ placeholder reason contains no HTML metacharacters. -/
theorem escape_reason_faqs :
    escape_html "No FAQ folder found yet. Add JSON/YAML files to schemas/faqs (or faq-schemas/) to populate this page."
      = "No FAQ folder found yet. Add JSON/YAML files to schemas/faqs (or faq-schemas/) to populate this page." := by
  decide

set_option maxRecDepth 8000 in
/-- The help placeholder reason contains no HTML metacharacters. -/
theorem escape_reason_help :
    escape_html "No help-articles folder found yet. Add .md files to schemas/help-articles (or help-articles/) to populate this page."
      = "No help-articles folder found yet. Add .md files to schemas/help-articles (or help-articles/) to populate this page." := by
  decide

/-- A page whose body is a `placeholder` card splits around the reason text,
with everything else independent of the reason. -/
theorem placeholder_page_split (org : OrgMeta) (pt cardTitle reason : String)
    (t : PyTime) (hesc : escape_html reason = reason) :
    generate_page org pt (placeholder cardTitle reason) t
      = (pageHead org pt ++ "\n    <div class=\"card\">\n        <h2>"
          ++ escape_html cardTitle ++ "</h2>\n        <p class=\"muted\">")
        ++ reason
        ++ ("</p>\n    </div>\n    " ++ footerPre ++ footerLine t ++ footerPost) := by
  rw [generate_page, placeholder, hesc]
  simp only [String.append_assoc]

/-- C2: whenever the directory resolver of a category found no candidate
directory — each category on its own, the others arbitrary — the renderer
of that category still produces its fixed output file, the document
contains the designated placeholder text of the category, and no exception
occurs (the FAQ and contact renderers, the only ones on these paths that
could raise, return `.ok`).  Covers every placeholder-bearing category:
services, locations/contact, awards, reviews/testimonials, FAQs, and help
(whose renderer falls back to markdown files in the llm-data directory, so
its placeholder needs that directory to be unresolved too). -/
theorem C2_missing_dirs_render_placeholders (fs : Fs) (env : Env) (t : PyTime) :
    (fs.servicesDir = none →
      (generate_services_page fs env t).1 = "services.html" ∧
      ∃ pre suf, (generate_services_page fs env t).2
        = pre ++ "No services folder found yet. Add JSON/YAML files to schemas/services (or services/) to populate this page." ++ suf) ∧
    (fs.locationsDir = none →
      ∃ doc, generate_contact_page fs env t = .ok ("contact.html", doc) ∧
      ∃ pre suf, doc
        = pre ++ "No locations folder found yet. Add location JSON/YAML files to your locations folder (or schemas/locations) to populate this page." ++ suf) ∧
    (fs.awardsDir = none →
      (generate_awards_page fs env t).1 = "awards.html" ∧
      ∃ pre suf, (generate_awards_page fs env t).2
        = pre ++ "No awards have been published yet." ++ suf) ∧
    (fs.reviewsDir = none →
      (generate_testimonials_page fs env t).1 = "testimonials.html" ∧
      ∃ pre suf, (generate_testimonials_page fs env t).2
        = pre ++ "No reviews folder found yet. Add JSON/YAML files to schemas/reviews (or reviews/) to populate this page." ++ suf) ∧
    (fs.faqDir = none →
      ∃ doc, generate_faq_page fs env t = .ok ("faqs.html", doc) ∧
      ∃ pre suf, doc
        = pre ++ "No FAQ folder found yet. Add JSON/YAML files to schemas/faqs (or faq-schemas/) to populate this page." ++ suf) ∧
    (fs.helpDir = none → fs.llmDataDir = none →
      (generate_help_articles_page fs env t).1 = "help.html" ∧
      ∃ pre suf, (generate_help_articles_page fs env t).2
        = pre ++ "No help-articles folder found yet. Add .md files to schemas/help-articles (or help-articles/) to populate this page." ++ suf) := by
  refine ⟨fun hs => ⟨rfl, ?_⟩, fun hl => ?_, fun ha => ⟨rfl, ?_⟩,
    fun hr => ⟨rfl, ?_⟩, fun hq => ?_, fun hh1 hh2 => ⟨rfl, ?_⟩⟩
  · have hsc : services_content fs
        = placeholder "Our Services" "No services folder found yet. Add JSON/YAML files to schemas/services (or services/) to populate this page." := by
      simp [services_content, hs]
    refine ⟨pageHead (load_org_meta fs.orgDir env) "Our Services"
      ++ "\n    <div class=\"card\">\n        <h2>" ++ escape_html "Our Services"
      ++ "</h2>\n        <p class=\"muted\">", "</p>\n    </div>\n    " ++ footerPre ++ footerLine t ++ footerPost, ?_⟩
    show generate_page (load_org_meta fs.orgDir env) "Our Services"
      (services_content fs) t = _
    rw [hsc]
    exact placeholder_page_split _ _ _ _ _ escape_reason_services
  · have hcc : contact_content fs
        = .ok (placeholder "Contact Us" "No locations folder found yet. Add location JSON/YAML files to your locations folder (or schemas/locations) to populate this page.") := by
      simp [contact_content, hl]
    refine ⟨generate_page (load_org_meta fs.orgDir env) "Contact Us"
      (placeholder "Contact Us" "No locations folder found yet. Add location JSON/YAML files to your locations folder (or schemas/locations) to populate this page.") t,
      ?_, pageHead (load_org_meta fs.orgDir env) "Contact Us"
      ++ "\n    <div class=\"card\">\n        <h2>" ++ escape_html "Contact Us"
      ++ "</h2>\n        <p class=\"muted\">", "</p>\n    </div>\n    " ++ footerPre ++ footerLine t ++ footerPost, ?_⟩
    · show (contact_content fs).map _ = _
      rw [hcc, Except.map]
    · exact placeholder_page_split _ _ _ _ _ escape_reason_locations
  · have hac : awards_content fs = "<p>No awards have been published yet.</p>" := by
      simp [awards_content, ha]
    refine ⟨pageHead (load_org_meta fs.orgDir env) "Awards" ++ "<p>",
      "</p>" ++ footerPre ++ footerLine t ++ footerPost, ?_⟩
    show generate_page (load_org_meta fs.orgDir env) "Awards" (awards_content fs) t = _
    rw [hac, generate_page]
    simp only [String.append_assoc]
    rfl
  · have htc : testimonials_content fs
        = placeholder "Testimonials" "No reviews folder found yet. Add JSON/YAML files to schemas/reviews (or reviews/) to populate this page." := by
      simp [testimonials_content, hr]
    refine ⟨pageHead (load_org_meta fs.orgDir env) "Testimonials"
      ++ "\n    <div class=\"card\">\n        <h2>" ++ escape_html "Testimonials"
      ++ "</h2>\n        <p class=\"muted\">", "</p>\n    </div>\n    " ++ footerPre ++ footerLine t ++ footerPost, ?_⟩
    show generate_page (load_org_meta fs.orgDir env) "Testimonials"
      (testimonials_content fs) t = _
    rw [htc]
    exact placeholder_page_split _ _ _ _ _ escape_reason_reviews
  · have hqc : faq_content fs
        = .ok (placeholder "FAQs" "No FAQ folder found yet. Add JSON/YAML files to schemas/faqs (or faq-schemas/) to populate this page.") := by
      simp [faq_content, hq]
    refine ⟨generate_page (load_org_meta fs.orgDir env) "Frequently Asked Questions"
      (placeholder "FAQs" "No FAQ folder found yet. Add JSON/YAML files to schemas/faqs (or faq-schemas/) to populate this page.") t,
      ?_, pageHead (load_org_meta fs.orgDir env) "Frequently Asked Questions"
      ++ "\n    <div class=\"card\">\n        <h2>" ++ escape_html "FAQs"
      ++ "</h2>\n        <p class=\"muted\">", "</p>\n    </div>\n    " ++ footerPre ++ footerLine t ++ footerPost, ?_⟩
    · show (faq_content fs).map _ = _
      rw [hqc, Except.map]
    · exact placeholder_page_split _ _ _ _ _ escape_reason_faqs
  · have hhc : help_content fs
        = placeholder "Help Center" "No help-articles folder found yet. Add .md files to schemas/help-articles (or help-articles/) to populate this page." := by
      simp [help_content, help_source, hh1, hh2]
    refine ⟨pageHead (load_org_meta fs.orgDir env) "Help Center"
      ++ "\n    <div class=\"card\">\n        <h2>" ++ escape_html "Help Center"
      ++ "</h2>\n        <p class=\"muted\">", "</p>\n    </div>\n    " ++ footerPre ++ footerLine t ++ footerPost, ?_⟩
    show generate_page (load_org_meta fs.orgDir env) "Help Center"
      (help_content fs) t = _
    rw [hhc]
    exact placeholder_page_split _ _ _ _ _ escape_reason_help

/-- C2 witness: on the empty tree, all six placeholder-bearing renderers
emit their fixed filenames, the FAQ and contact renderers without
raising. -/
theorem C2_missing_dirs_render_placeholders_witness :
    (generate_services_page emptyFs ⟨""⟩ ⟨2025, "2025-01-01 00:00 UTC"⟩).1
      = "services.html" ∧
    (∃ doc, generate_contact_page emptyFs ⟨""⟩ ⟨2025, "2025-01-01 00:00 UTC"⟩
      = .ok ("contact.html", doc)) ∧
    (generate_awards_page emptyFs ⟨""⟩ ⟨2025, "2025-01-01 00:00 UTC"⟩).1
      = "awards.html" ∧
    (generate_testimonials_page emptyFs ⟨""⟩ ⟨2025, "2025-01-01 00:00 UTC"⟩).1
      = "testimonials.html" ∧
    (∃ doc, generate_faq_page emptyFs ⟨""⟩ ⟨2025, "2025-01-01 00:00 UTC"⟩
      = .ok ("faqs.html", doc)) ∧
    (generate_help_articles_page emptyFs ⟨""⟩ ⟨2025, "2025-01-01 00:00 UTC"⟩).1
      = "help.html" := by
  obtain ⟨hsv, hlo, haw, hre, hfq, hhe⟩ :=
    C2_missing_dirs_render_placeholders emptyFs ⟨""⟩ ⟨2025, "2025-01-01 00:00 UTC"⟩
  obtain ⟨doc1, hdoc1, -⟩ := hlo rfl
  obtain ⟨doc2, hdoc2, -⟩ := hfq rfl
  exact ⟨(hsv rfl).1, ⟨doc1, hdoc1⟩, (haw rfl).1, (hre rfl).1, ⟨doc2, hdoc2⟩,
    (hhe rfl rfl).1⟩

/-! ### Claim C3 -/

/-- C3 counterexample: a `.json` file whose content is the empty mapping
`\x7b\x7d`.  `json.loads` yields a mapping, but `load_data` returns `[]`
rather than the one-element list `[\x7b\x7d]` the claim requires, because
`data or []` discards falsy parse results. -/
theorem C3_counterexample_empty_mapping :
    load_data emptyMapJson = [] ∧ load_data emptyMapJson ≠ [Value.dict []] :=
  ⟨rfl, fun h => absurd (congrArg List.length h) (by decide)⟩

/-- C3 (amended): `load_data` always returns a list and never raises: empty
content gives `[]`; on each extension branch a parser failure gives `[]` and
a parsed value `v` gives `wrapRecords v`; unrecognized extensions give `[]`;
and `wrapRecords` returns a parsed list as-is, collapses falsy payloads
(empty mapping, empty list, `null`, `0`, `""`) to `[]`, and wraps any other
truthy payload — in particular a non-empty mapping — in a one-element
list.  A missing path also gives `[]`. -/
theorem C3_load_data_characterization (f : SrcFile) :
    (pyStrip f.content = "" → load_data f = []) ∧
    (endswithAny (lowerStr f.name) [".json", ".jsonld"] = true →
      (∀ e, f.parsedJson = .error e → load_data f = []) ∧
      (∀ v, pyStrip f.content ≠ "" → f.parsedJson = .ok v →
        load_data f = wrapRecords v)) ∧
    (endswithAny (lowerStr f.name) [".json", ".jsonld"] = false →
      endswithAny (lowerStr f.name) [".yaml", ".yml"] = true →
      (∀ e, f.parsedYaml = .error e → load_data f = []) ∧
      (∀ v, pyStrip f.content ≠ "" → f.parsedYaml = .ok v →
        load_data f = wrapRecords v)) ∧
    (endswithAny (lowerStr f.name) [".json", ".jsonld"] = false →
      endswithAny (lowerStr f.name) [".yaml", ".yml"] = false →
      endswithAny (lowerStr f.name) [".txt", ".md", ".llm"] = true →
      ((strStartsWith (pyLStrip (pyStrip f.content)) "\x7b" = true ∨
          strStartsWith (pyLStrip (pyStrip f.content)) "[" = true) →
        (∀ e, f.parsedJson = .error e → load_data f = []) ∧
        (∀ v, pyStrip f.content ≠ "" → f.parsedJson = .ok v →
          load_data f = wrapRecords v)) ∧
      (strStartsWith (pyLStrip (pyStrip f.content)) "\x7b" = false →
        strStartsWith (pyLStrip (pyStrip f.content)) "[" = false →
        (∀ e, f.parsedYaml = .error e → load_data f = []) ∧
        (∀ v, pyStrip f.content ≠ "" → f.parsedYaml = .ok v →
          load_data f = wrapRecords v))) ∧
    (endswithAny (lowerStr f.name) [".json", ".jsonld"] = false →
      endswithAny (lowerStr f.name) [".yaml", ".yml"] = false →
      endswithAny (lowerStr f.name) [".txt", ".md", ".llm"] = false →
      load_data f = []) ∧
    (∀ xs, wrapRecords (.list xs) = xs) ∧
    (∀ v, truthy v = false → wrapRecords v = []) ∧
    (∀ v, truthy v = true → (∀ xs, v ≠ .list xs) → wrapRecords v = [v]) ∧
    load_data_at none = [] := by
  refine ⟨fun h => by simp [load_data, h], fun hj => ⟨fun e he => ?_, fun v hc hv => ?_⟩,
    fun hj hy => ⟨fun e he => ?_, fun v hc hv => ?_⟩,
    fun hj hy ht => ⟨fun hsn => ⟨fun e he => ?_, fun v hc hv => ?_⟩,
      fun hs1 hs2 => ⟨fun e he => ?_, fun v hc hv => ?_⟩⟩,
    fun hj hy ht => ?_, fun xs => ?_, fun v hv => ?_, fun v hv hnl => ?_, rfl⟩
  · simp [load_data, hj, he]
  · simp [load_data, hj, hv, hc]
  · simp [load_data, hj, hy, he]
  · simp [load_data, hj, hy, hv, hc]
  · rcases hsn with h | h <;> simp [load_data, hj, hy, ht, h, he]
  · rcases hsn with h | h <;> simp [load_data, hj, hy, ht, h, hv, hc]
  · simp [load_data, hj, hy, ht, hs1, hs2, he]
  · simp [load_data, hj, hy, ht, hs1, hs2, hv, hc]
  · simp [load_data, hj, hy, ht]
  · rcases xs with _ | ⟨y, ys⟩ <;> simp [wrapRecords, truthy]
  · simp [wrapRecords, hv]
  · cases v with
    | list xs => exact absurd rfl (hnl xs)
    | _ => simp [wrapRecords, hv]

/-- C3 witness: a `.json` file parsing to a two-record list is returned
as-is by `load_data`. -/
theorem C3_load_data_characterization_witness :
    load_data twoRecordJson
      = [Value.dict [("title", .str "A")], Value.dict [("title", .str "B")]] := by
  obtain ⟨-, hjson, -, -, -, hlist, -⟩ := C3_load_data_characterization twoRecordJson
  rw [(hjson rfl).2 (.list [.dict [("title", .str "A")], .dict [("title", .str "B")]])
    (by decide) rfl]
  exact hlist _

/-! ### Claim C4 -/

/-- C4 counterexample: a FAQ file whose payload is a mapping with a list
under the known key `faqs`.  The loader returns the wrapper as one record
and the FAQ page iterates that output directly (never applying
`_normalize_records`), so the wrapper — lacking a `question` — is skipped
and the page falls back to its placeholder, even though
`_normalize_records` would have unwrapped it to the usable inner record. -/
theorem C4_counterexample_faq_wrapper_skipped :
    load_data faqWrapperFile = [faqWrapperRecord] ∧
    normalize_records faqWrapperRecord = [faqInnerRecord] ∧
    faq_items [faqWrapperFile] = .ok [] ∧
    faq_content { emptyFs with faqDir := some [faqWrapperFile] }
      = .ok (placeholder "FAQs" "No usable FAQs found yet.") :=
  ⟨rfl, rfl, rfl, rfl⟩

/-- C4 (amended): `_normalize_records` itself unwraps a top-level mapping
with a list under `locations`, `services` or `faqs` (in that priority
order), and is the identity on lists — the shape in which the contact page
invokes it, making that call a no-op; the FAQ page never invokes it. -/
theorem C4_normalize_unwraps_known_keys (kvs : List (String × Value))
    (xs : List Value) :
    (dictGet kvs "locations" = some (.list xs) →
      normalize_records (.dict kvs) = xs) ∧
    ((∀ ys, dictGet kvs "locations" ≠ some (.list ys)) →
      dictGet kvs "services" = some (.list xs) →
      normalize_records (.dict kvs) = xs) ∧
    ((∀ ys, dictGet kvs "locations" ≠ some (.list ys)) →
      (∀ ys, dictGet kvs "services" ≠ some (.list ys)) →
      dictGet kvs "faqs" = some (.list xs) →
      normalize_records (.dict kvs) = xs) ∧
    (∀ data : List Value, normalize_records (.list data) = data) := by
  refine ⟨fun h => by simp [normalize_records, h], fun h1 h2 => ?_,
    fun h1 h2 h3 => ?_, fun data => rfl⟩
  · cases hl : dictGet kvs "locations" with
    | none => simp [normalize_records, hl, h2]
    | some v =>
        cases v with
        | list ys => exact absurd hl (h1 ys)
        | _ => simp [normalize_records, hl, h2]
  · cases hl : dictGet kvs "locations" with
    | none =>
        cases hsv : dictGet kvs "services" with
        | none => simp [normalize_records, hl, hsv, h3]
        | some w =>
            cases w with
            | list ys => exact absurd hsv (h2 ys)
            | _ => simp [normalize_records, hl, hsv, h3]
    | some v =>
        cases v with
        | list ys => exact absurd hl (h1 ys)
        | _ =>
            cases hsv : dictGet kvs "services" with
            | none => simp [normalize_records, hl, hsv, h3]
            | some w =>
                cases w with
                | list ys => exact absurd hsv (h2 ys)
                | _ => simp [normalize_records, hl, hsv, h3]

/-- C4 witness: a mapping wrapping a location list is unwrapped by
`_normalize_records`. -/
theorem C4_normalize_unwraps_known_keys_witness :
    normalize_records (.dict [("locations", .list [.dict [("name", .str "HQ")]])])
      = [.dict [("name", .str "HQ")]] :=
  (C4_normalize_unwraps_known_keys _ _).1 rfl

/-! ### Claim C5 -/

/-- C5 counterexample: a `.txt` file in the services directory whose content
is valid JSON.  `load_data` would parse it (the permissive sniffing works),
but the services renderer filters directory entries to
`.json`/`.yaml`/`.yml` before ever calling `load_data`, so the record never
reaches the page and the placeholder is rendered instead. -/
theorem C5_counterexample_txt_service_ignored :
    load_data txtServiceFile = [.dict [("title", .str "Tax Advisory")]] ∧
    services_items [txtServiceFile] = [] ∧
    services_content { emptyFs with servicesDir := some [txtServiceFile] }
      = placeholder "Our Services" "No usable services found yet." :=
  ⟨rfl, rfl, rfl⟩

/-- C5 (amended): `load_data` can parse `.md`/`.llm`/`.txt` files holding
JSON or YAML, but the structured-data renderers (services, testimonials,
FAQs — and likewise the other record pages) admit only
`.json`/`.yaml`/`.yml` filenames, so a file with any other extension
contributes no records to the rendered pages. -/
theorem C5_non_structured_ext_never_contributes (f : SrcFile)
    (files : List SrcFile) (h : dataExtOk f = false) :
    services_items (f :: files) = services_items files ∧
    testimonials_items (f :: files) = testimonials_items files ∧
    faq_items (f :: files) = faq_items files := by
  have key : (sortFiles (f :: files)).filter dataExtOk
      = (sortFiles files).filter dataExtOk := by
    have hins : sortFiles (f :: files)
        = insertLe strLe (fun g => g.name) f (sortFiles files) := rfl
    rw [hins, filter_insertLe_neg _ _ _ _ h]
  refine ⟨?_, ?_, ?_⟩
  · simp only [services_items, key]
  · simp only [testimonials_items, key]
  · simp only [faq_items, key]

/-- C5 witness: the `.txt` service file contributes nothing even though it
parses. -/
theorem C5_non_structured_ext_never_contributes_witness :
    services_items [txtServiceFile] = [] ∧ load_data txtServiceFile ≠ [] := by
  constructor
  · rw [(C5_non_structured_ext_never_contributes txtServiceFile [] (by decide)).1]
    rfl
  · intro h
    exact absurd (congrArg List.length h) (by decide)

/-! ### Claim C6 -/

/-- C6 counterexample: a service record titled `"Service"` that also carries
keywords renders the keywords-derived title `"Roofing"`, not the
filename-derived `"Roof Repair"` the claim requires. -/
theorem C6_counterexample_keywords_preempt_filename :
    service_title kwService "roof-repair.json" = "Roofing" ∧
    title_from_filename "roof-repair.json" = "Roof Repair" ∧
    service_title kwService "roof-repair.json"
      ≠ title_from_filename "roof-repair.json" :=
  ⟨by decide, by decide, by decide⟩

/-- C6 (amended): a record whose title is the blacklisted `"Service"` or
`"item 3"` renders the filename-derived title only when it has no usable
keywords; with keywords, the title-cased join of the first two keywords is
rendered instead (unless that too is blacklisted). -/
theorem C6_placeholder_title_fallback (svc : Value) (fn : String)
    (ht : svc.get "title" = some (.str "Service")
      ∨ svc.get "title" = some (.str "item 3")) :
    (as_list (svc.get "keywords") = [] →
      service_title svc fn = title_from_filename fn) ∧
    (∀ k ks, as_list (svc.get "keywords") = k :: ks →
      is_placeholder_title (pyTitle (String.intercalate " / " ((k :: ks).take 2)))
        = false →
      service_title svc fn
        = pyTitle (String.intercalate " / " ((k :: ks).take 2))) := by
  have hcand : first_nonempty [svc.get "title", svc.get "service_name",
      svc.get "name"] = "Service" ∨
      first_nonempty [svc.get "title", svc.get "service_name",
      svc.get "name"] = "item 3" := by
    rcases ht with h | h
    · exact Or.inl (by simp only [first_nonempty, h]; rfl)
    · exact Or.inr (by simp only [first_nonempty, h]; rfl)
  have hps : ∀ s, first_nonempty [svc.get "title", svc.get "service_name",
      svc.get "name"] = s → is_placeholder_title s = true := by
    rcases hcand with h | h <;> intro s hs <;> rw [h] at hs <;> subst hs <;> decide
  constructor
  · intro hk
    rcases hcand with h | h <;>
      simp [service_title, h, hk, hps _ h]
  · intro k ks hk hnp
    simp only [List.take_succ_cons] at hnp
    rcases hcand with h | h <;>
      simp [service_title, h, hk, hps _ h, hnp]

/-- C6 witness: with no keywords, the blacklisted title `"Service"` in file
`roof-repair.json` renders the filename-derived `"Roof Repair"`. -/
theorem C6_placeholder_title_fallback_witness :
    service_title (.dict [("title", .str "Service")]) "roof-repair.json"
      = "Roof Repair" := by
  rw [(C6_placeholder_title_fallback (.dict [("title", .str "Service")])
    "roof-repair.json" (Or.inl rfl)).1 rfl]
  decide

/-! ### Claim C7 -/

/-- C7: with review records rated 5, 3 and 4, the about page's facts list
holds exactly the average-rating row: the value formatted as `4.0` followed
by four filled stars and one empty star. -/
theorem C7_average_rating_fact :
    about_facts fsReviews543 = ["<strong>Average rating:</strong> 4.0 ★★★★☆"] := by
  have h1 : about_ratings fsReviews543.reviewsDir
      = [((5 : Int) : Rat), ((3 : Int) : Rat), ((4 : Int) : Rat)] := rfl
  have havg : about_avg_rating fsReviews543.reviewsDir = some 4 := by
    unfold about_avg_rating
    rw [h1]
    norm_num
  have hr : roundHalfEven (4 : Rat) = 4 := by
    rw [show (4 : Rat) = ((4 : Int) : Rat) by norm_num]
    exact roundHalfEven_int 4
  have h40 : roundHalfEven ((4 : Rat) * 10) = 40 := by
    rw [show (4 : Rat) * 10 = ((40 : Int) : Rat) by norm_num]
    exact roundHalfEven_int 40
  have hf : fmt1 (4 : Rat) = "4.0" := by
    unfold fmt1
    rw [h40]
    decide
  simp only [about_facts, havg, hr, hf]
  decide

/-! ### Claim C8 -/

/-- Monad bind on a successful `Except` computes the continuation. -/
theorem except_bind_ok {α β ε : Type} (a : α) (f : α → Except ε β) :
    (Except.ok a >>= f) = f a := rfl

/-- `pure` on `Except` is `Except.ok`. -/
theorem except_pure_eq_ok {α ε : Type} (a : α) :
    (pure a : Except ε α) = .ok a := rfl

/-- C8 counterexample: a record with explicit numeric latitude 0 and
longitude 7 plus an explicit map URL.  The claim requires the
coordinate-based URL, but the truthiness-based `or` lookup discards the
falsy latitude 0, so the code emits the explicit map URL instead. -/
theorem C8_counterexample_zero_latitude :
    zeroLatLoc.get "latitude" = some (.int 0) ∧
    zeroLatLoc.get "longitude" = some (.int 7) ∧
    isNumPy (some (.int 0)) = true ∧
    map_embed_src zeroLatLoc "" = .ok "https://maps.example.com/embed" ∧
    map_embed_src zeroLatLoc ""
      ≠ .ok "https://www.google.com/maps?q=0,7&z=15&output=embed" := by
  refine ⟨rfl, rfl, rfl, rfl, ?_⟩
  intro h
  have h' : Except.ok (ε := Unit) "https://maps.example.com/embed"
      = .ok "https://www.google.com/maps?q=0,7&z=15&output=embed" := h
  exact absurd (Except.ok.inj h') (by decide)

/-- C8 (amended): with the latitude/longitude looked up by the truthiness
`or`-chain (top-level field if truthy, else the `geo` sub-mapping's field),
the iframe source priority holds: both lookups numeric — coordinate URL;
otherwise a non-empty explicit map/embed URL field (first
`map_embed_url`/`map`/`map_iframe`, then
`google_maps_url`/`maps_url`/`map_url`); otherwise geocoding by a non-empty
address; otherwise the empty string, which suppresses the iframe. -/
theorem C8_map_priority (loc : Value) (address : String) (lat lng : Option Value)
    (hlat : mapCoordLookup loc "latitude" = .ok lat)
    (hlng : mapCoordLookup loc "longitude" = .ok lng) :
    ((isNumPy lat && isNumPy lng) = true →
      map_embed_src loc address
        = .ok ("https://www.google.com/maps?q=" ++ pyStr (lat.getD .null) ++ ","
            ++ pyStr (lng.getD .null) ++ "&z=15&output=embed")) ∧
    ((isNumPy lat && isNumPy lng) = false →
      (first_nonempty [loc.get "map_embed_url", loc.get "map",
          loc.get "map_iframe"] ≠ "" →
        map_embed_src loc address
          = .ok (first_nonempty [loc.get "map_embed_url", loc.get "map",
              loc.get "map_iframe"])) ∧
      (first_nonempty [loc.get "map_embed_url", loc.get "map",
          loc.get "map_iframe"] = "" →
        first_nonempty [loc.get "google_maps_url", loc.get "maps_url",
          loc.get "map_url"] ≠ "" →
        map_embed_src loc address
          = .ok (first_nonempty [loc.get "google_maps_url", loc.get "maps_url",
              loc.get "map_url"])) ∧
      (first_nonempty [loc.get "map_embed_url", loc.get "map",
          loc.get "map_iframe"] = "" →
        first_nonempty [loc.get "google_maps_url", loc.get "maps_url",
          loc.get "map_url"] = "" →
        address ≠ "" →
        map_embed_src loc address
          = .ok ("https://www.google.com/maps?q=" ++ quote_plus address
              ++ "&output=embed")) ∧
      (first_nonempty [loc.get "map_embed_url", loc.get "map",
          loc.get "map_iframe"] = "" →
        first_nonempty [loc.get "google_maps_url", loc.get "maps_url",
          loc.get "map_url"] = "" →
        address = "" →
        map_embed_src loc address = .ok "")) := by
  refine ⟨fun hnum => ?_, fun hnum =>
    ⟨fun hmap => ?_, fun hmap hg => ?_, fun hmap hg ha => ?_, fun hmap hg ha => ?_⟩⟩ <;>
    simp only [map_embed_src, hlat, hlng, except_bind_ok]
  · simp [hnum, except_pure_eq_ok]
  · simp [hnum, hmap, bne_iff_ne, except_pure_eq_ok]
  · simp [hnum, hmap, hg, bne_iff_ne, except_pure_eq_ok]
  · simp [hnum, hmap, hg, ha, bne_iff_ne, except_pure_eq_ok]
  · simp [hnum, hmap, hg, ha, bne_iff_ne, except_pure_eq_ok]

/-- C8 witness: coordinates found in the `geo` sub-mapping yield the
coordinate-based embed URL. -/
theorem C8_map_priority_witness :
    map_embed_src geoLoc ""
      = .ok "https://www.google.com/maps?q=40,-74&z=15&output=embed" := by
  rw [(C8_map_priority geoLoc "" (some (.int 40)) (some (.int (-74))) rfl rfl).1 rfl]
  exact congrArg Except.ok (by decide)

/-! ### Claim C9 -/

/-- C9: two runs over the same input tree and environment, differing only in
wall-clock time, produce the same eight outcomes: any renderer that raises
does so in both runs (writing nothing), and every written document is
byte-identical apart from the footer timestamp paragraph. -/
theorem C9_runs_differ_only_in_timestamp (fs : Fs) (env : Env) (t1 t2 : PyTime) :
    List.Forall₂ (tsOnlyDiff t1 t2) (runAll fs env t1) (runAll fs env t2) := by
  unfold runAll
  refine .cons ?_ (.cons ?_ (.cons ?_ (.cons ?_ (.cons ?_ (.cons ?_
    (.cons ?_ (.cons ?_ .nil)))))))
  · exact Or.inr ⟨"index.html",
      pageHead (load_org_meta fs.orgDir env) (index_title fs env)
        ++ index_content fs env ++ footerPre, footerPost, rfl, rfl⟩
  · exact Or.inr ⟨"about.html",
      pageHead (load_org_meta fs.orgDir env) (aboutDisplayName fs env)
        ++ about_content fs env ++ footerPre, footerPost, rfl, rfl⟩
  · exact Or.inr ⟨"services.html",
      pageHead (load_org_meta fs.orgDir env) "Our Services"
        ++ services_content fs ++ footerPre, footerPost, rfl, rfl⟩
  · exact Or.inr ⟨"awards.html",
      pageHead (load_org_meta fs.orgDir env) "Awards"
        ++ awards_content fs ++ footerPre, footerPost, rfl, rfl⟩
  · exact Or.inr ⟨"testimonials.html",
      pageHead (load_org_meta fs.orgDir env) "Testimonials"
        ++ testimonials_content fs ++ footerPre, footerPost, rfl, rfl⟩
  · cases h : faq_content fs with
    | error e =>
        exact Or.inl ⟨by simp [generate_faq_page, h, exceptToOption, Except.map],
          by simp [generate_faq_page, h, exceptToOption, Except.map]⟩
    | ok c =>
        refine Or.inr ⟨"faqs.html",
          pageHead (load_org_meta fs.orgDir env) "Frequently Asked Questions"
            ++ c ++ footerPre, footerPost, ?_, ?_⟩ <;>
          simp [generate_faq_page, h, exceptToOption, Except.map, generate_page]
  · exact Or.inr ⟨"help.html",
      pageHead (load_org_meta fs.orgDir env) "Help Center"
        ++ help_content fs ++ footerPre, footerPost, rfl, rfl⟩
  · cases h : contact_content fs with
    | error e =>
        exact Or.inl ⟨by simp [generate_contact_page, h, exceptToOption, Except.map],
          by simp [generate_contact_page, h, exceptToOption, Except.map]⟩
    | ok c =>
        refine Or.inr ⟨"contact.html",
          pageHead (load_org_meta fs.orgDir env) "Contact Us"
            ++ c ++ footerPre, footerPost, ?_, ?_⟩ <;>
          simp [generate_contact_page, h, exceptToOption, Except.map, generate_page]

/-! ### Claim C10 -/

/-- C10: every testimonial's displayed rating is an integer clamped to
`[1, 5]`; its star display is the filled-run-then-empty-run string of
exactly 5 star characters; and a missing or unparseable `rating` field
renders 5 filled stars. -/
theorem C10_testimonial_star_rating (rev : Value) :
    1 ≤ review_rating rev ∧ review_rating rev ≤ 5 ∧
    star_display (review_rating rev)
      = String.mk (List.replicate (review_rating rev).toNat '★'
          ++ List.replicate (5 - (review_rating rev).toNat) '☆') ∧
    (star_display (review_rating rev)).length = 5 ∧
    (rev.get "rating" = none → review_rating rev = 5 ∧
      star_display (review_rating rev) = "★★★★★") ∧
    (∀ raw, rev.get "rating" = some raw → pyFloat raw = .error () →
      review_rating rev = 5 ∧ star_display (review_rating rev) = "★★★★★") := by
  have h1 : 1 ≤ review_rating rev := le_max_left 1 _
  have h2 : review_rating rev ≤ 5 := max_le (by norm_num) (min_le_left 5 _)
  have hts : ((5 : Int) - review_rating rev).toNat
      = 5 - (review_rating rev).toNat := by omega
  have hshape : star_display (review_rating rev)
      = String.mk (List.replicate (review_rating rev).toNat '★'
          ++ List.replicate (5 - (review_rating rev).toNat) '☆') := by
    unfold star_display starFill starEmpty
    rw [hts]
    rfl
  have hlen : (star_display (review_rating rev)).length = 5 := by
    rw [hshape]
    show (List.replicate (review_rating rev).toNat '★'
      ++ List.replicate (5 - (review_rating rev).toNat) '☆').length = 5
    rw [List.length_append, List.length_replicate, List.length_replicate]
    omega
  have hfive : ∀ _ : review_rating rev = 5,
      star_display (review_rating rev) = "★★★★★" := by
    intro hv
    rw [star_display, hv]
    decide
  refine ⟨h1, h2, hshape, hlen, fun h => ?_, fun raw hr he => ?_⟩
  · have hval : review_rating rev = review_rating (.dict []) := by
      unfold review_rating
      rw [h]
      decide
    have hval5 : review_rating rev = 5 := by
      rw [hval]
      decide
    exact ⟨hval5, hfive hval5⟩
  · have hval5 : review_rating rev = 5 := by
      unfold review_rating
      rw [hr, Option.getD_some, he]
      decide
    exact ⟨hval5, hfive hval5⟩

/-- C10 witness: a review record with no `rating` field renders 5 filled
stars. -/
theorem C10_testimonial_star_rating_witness :
    review_rating (.dict []) = 5
      ∧ star_display (review_rating (.dict [])) = "★★★★★" :=
  (C10_testimonial_star_rating (.dict [])).2.2.2.2.1 rfl

end BuildPublicPages
